import Mathlib

/-!
Payment processor: engine and router.

A shallow embedding of `model/payment.go`, `engine/payment_engine.go` and
`engine/processor_router.go`, followed by theorems about `CreatePayment`,
`RegisterProcessor`, `AddRoutingRule` and `GetProcessor`.

Modelling conventions.

* A Go method with a pointer argument that it may mutate becomes a function
  returning the mutated value next to its result.
* The external collaborators (repository, processors) are arbitrary functions
  over an explicit world state `σ`; their answers may depend on everything that
  happened before.
* `uuid.New().String()` and `time.Now().UTC()` are inputs of `CreatePayment`.
* An `error` value is a tree: `fmt.Errorf` with `%w` keeps the wrapped error.
  Format strings are kept verbatim, not rendered.
* Routing conditions are total, side-effect free predicates.
-/

namespace Payments

/-! ## model/payment.go -/

/-- Go: `type PaymentStatus string`. -/
abbrev PaymentStatus := String

def StatusPending : PaymentStatus := "pending"
def StatusAuthorized : PaymentStatus := "authorized"
def StatusCompleted : PaymentStatus := "completed"
def StatusFailed : PaymentStatus := "failed"
def StatusRefunded : PaymentStatus := "refunded"

/-- A value stored in the `map[string]interface{}` detail bag. -/
inductive DetailValue where
  | str (s : String)
  | num (n : Int)
  | bool (b : Bool)
  | null
  deriving DecidableEq, Repr

/-- Go: `type PaymentMethod struct`; the field `Type` is spelled `Typ`. -/
structure PaymentMethod where
  Typ : String
  Details : List (String × DetailValue)
  deriving DecidableEq, Repr

/-- Go: `type Payment struct`. Times are instants counted from a fixed origin. -/
structure Payment where
  ID : String
  ExternalID : String
  Amount : Int
  Currency : String
  Status : PaymentStatus
  PaymentMethod : PaymentMethod
  CreatedAt : Nat
  UpdatedAt : Nat
  Metadata : List (String × String)
  deriving DecidableEq, Repr

/-! ## Errors -/

/-- Go `error` values as they are built in the engine package. -/
inductive GoError where
  /-- Value made by `errors.New(msg)`, or any error of a collaborator. -/
  | errorsNew (msg : String)
  /-- Value made by `fmt.Errorf(format, arg)` with a string argument. -/
  | errorf (format : String) (arg : String)
  /-- Value made by `fmt.Errorf(format, err)` where `format` ends in `%w`. -/
  | wrap (format : String) (cause : GoError)
  deriving DecidableEq, Repr

deriving instance DecidableEq for Except

/-- Go: `errors.Unwrap`. -/
def GoError.Unwrap : GoError → Option GoError
  | .wrap _ cause => some cause
  | _ => none

/-! ## Collaborator interfaces -/

/-- Go: `repository.PaymentRepository` (`List` is not used by the engine). -/
structure PaymentRepository (σ : Type) where
  Save : σ → Payment → σ × Option GoError
  Get : σ → String → σ × Option Payment × Option GoError

/-- Go: `engine.PaymentProcessor`. `Authorize` receives a pointer to the
payment and may change it; the changed payment is part of its result. -/
structure PaymentProcessor (σ : Type) where
  Authorize : σ → Payment → σ × Payment × Option GoError
  Capture : σ → String → Int → σ × Option GoError
  Refund : σ → String → Int → σ × Option GoError

/-! ## engine/payment_engine.go -/

/-- Go: `type PaymentEngine struct`. -/
structure PaymentEngine (σ : Type) where
  processor : PaymentProcessor σ
  repo : PaymentRepository σ

/-- One call made by the engine to a collaborator, with what came back. -/
inductive Call where
  | Save (record : Payment) (err : Option GoError)
  | Authorize (before after : Payment) (err : Option GoError)
  deriving DecidableEq, Repr

/-- Everything observable after `CreatePayment`: the world, the caller's
payment object as the call left it, the collaborator calls in order, and the
returned pair `(*Payment, error)`, of which exactly one is non-nil. -/
structure CreateOutcome (σ : Type) where
  world : σ
  payment : Payment
  calls : List Call
  result : Except GoError Payment

/-- The first four assignments of `CreatePayment`: the payment as it is when
`Save` is first called. -/
def initialRecord (payment : Payment) (newID : String) (now : Nat) : Payment :=
  { payment with ID := newID, Status := StatusPending, CreatedAt := now, UpdatedAt := now }

/-- Go: `func (e *PaymentEngine) CreatePayment`. `newID` is
`uuid.New().String()` and `now` is `time.Now().UTC()`. -/
def CreatePayment {σ : Type} (e : PaymentEngine σ) (newID : String) (now : Nat)
    (s0 : σ) (payment : Payment) : CreateOutcome σ :=
  let p0 : Payment := initialRecord payment newID now
  match e.repo.Save s0 p0 with
  | (s1, some err) =>
    { world := s1, payment := p0, calls := [Call.Save p0 (some err)],
      result := .error (.wrap "failed to save initial payment: %w" err) }
  | (s1, none) =>
    match e.processor.Authorize s1 p0 with
    | (s2, p1, some err) =>
      let p2 : Payment := { p1 with Status := StatusFailed }
      let r := e.repo.Save s2 p2
      { world := r.1, payment := p2,
        calls := [Call.Save p0 none, Call.Authorize p0 p1 (some err), Call.Save p2 r.2],
        result := .error (.wrap "authorization failed: %w" err) }
    | (s2, p1, none) =>
      if p1.Status = StatusAuthorized then
        { world := s2, payment := p1,
          calls := [Call.Save p0 none, Call.Authorize p0 p1 none],
          result := .ok p1 }
      else
        let p2 : Payment := { p1 with Status := StatusCompleted }
        match e.repo.Save s2 p2 with
        | (s3, some err) =>
          { world := s3, payment := p2,
            calls := [Call.Save p0 none, Call.Authorize p0 p1 none, Call.Save p2 (some err)],
            result := .error (.wrap "failed to save completed payment: %w" err) }
        | (s3, none) =>
          { world := s3, payment := p2,
            calls := [Call.Save p0 none, Call.Authorize p0 p1 none, Call.Save p2 none],
            result := .ok p2 }

/-! ## engine/processor_router.go -/

/-- Go: `type RoutingRule struct`. -/
structure RoutingRule where
  Name : String
  Condition : Payment → Bool
  ProcessorID : String
  Priority : Int

/-- Go `map[string]V`: a list of entries with pairwise distinct keys. -/
abbrev GoMap (V : Type) := List (String × V)

/-- Go: `v, exists := m[k]`. -/
def GoMap.get {V : Type} : GoMap V → String → Option V
  | [], _ => none
  | (k', v) :: rest, k => if k' = k then some v else GoMap.get rest k

/-- Go: `m[k] = v`. -/
def GoMap.set {V : Type} : GoMap V → String → V → GoMap V
  | [], k, v => [(k, v)]
  | (k', v') :: rest, k, v =>
    if k' = k then (k', v) :: rest else (k', v') :: GoMap.set rest k v

/-- Go: `type ProcessorRouter struct` (the lock and `Repo` apart; `Repo` is
used by `Capture` and `Refund` only). -/
structure ProcessorRouter (σ : Type) where
  processors : GoMap (PaymentProcessor σ)
  routingRules : List RoutingRule
  defaultProcessor : String

/-- The rule `NewProcessorRouter` installs. -/
def fallbackRule : RoutingRule :=
  { Name := "fallback", Condition := fun _ => true, ProcessorID := "stripe", Priority := 0 }

/-- Go: `func NewProcessorRouter`. -/
def NewProcessorRouter (σ : Type) : ProcessorRouter σ :=
  { processors := [], routingRules := [fallbackRule], defaultProcessor := "stripe" }

/-- Go: `func (r *ProcessorRouter) RegisterProcessor`. Returns the router
after the call and the returned error. -/
def RegisterProcessor {σ : Type} (r : ProcessorRouter σ) (id : String)
    (processor : PaymentProcessor σ) : ProcessorRouter σ × Option GoError :=
  match r.processors.get id with
  | some _ => (r, some (.errorf "processor %q already registered" id))
  | none => ({ r with processors := r.processors.set id processor }, none)

/-- The `for i, existing := range r.routingRules` loop of `AddRoutingRule`:
the index at which it inserts, counted from `i`, or `none` when it ends with
`inserted == false`. -/
def insertionIndex (rule : RoutingRule) : List RoutingRule → Nat → Option Nat
  | [], _ => none
  | existing :: rest, i =>
    if rule.Priority > existing.Priority then some i else insertionIndex rule rest (i + 1)

/-- The rule list `AddRoutingRule` stores once the target is known to exist. -/
def insertRule (rule : RoutingRule) (rules : List RoutingRule) : List RoutingRule :=
  match insertionIndex rule rules 0 with
  | some i => rules.take i ++ ([rule] ++ rules.drop i)
  | none => rules ++ [rule]

/-- Go: `func (r *ProcessorRouter) AddRoutingRule`. -/
def AddRoutingRule {σ : Type} (r : ProcessorRouter σ) (rule : RoutingRule) :
    ProcessorRouter σ × Option GoError :=
  match r.processors.get rule.ProcessorID with
  | none => (r, some (.errorf "processor %q not registered" rule.ProcessorID))
  | some _ => ({ r with routingRules := insertRule rule r.routingRules }, none)

/-- The `for _, rule := range r.routingRules` loop of `GetProcessor`. -/
def GetProcessor.loop {σ : Type} (processors : GoMap (PaymentProcessor σ)) (payment : Payment) :
    List RoutingRule → Option (PaymentProcessor σ)
  | [] => none
  | rule :: rest =>
    if rule.Condition payment then
      match processors.get rule.ProcessorID with
      | some processor => some processor
      | none => GetProcessor.loop processors payment rest
    else GetProcessor.loop processors payment rest

/-- Go: `func (r *ProcessorRouter) GetProcessor`. -/
def GetProcessor {σ : Type} (r : ProcessorRouter σ) (payment : Payment) :
    Except GoError (PaymentProcessor σ) :=
  match GetProcessor.loop r.processors payment r.routingRules with
  | some processor => .ok processor
  | none =>
    match r.processors.get r.defaultProcessor with
    | some defaultProc => .ok defaultProc
    | none => .error (.errorsNew "no suitable processor available")

/-! ## Router: specification-side notions -/

/-- A rule resolves for a record when its predicate matches the record and its
target processor is currently registered. -/
def resolves {σ : Type} (r : ProcessorRouter σ) (record : Payment) (rule : RoutingRule) : Bool :=
  rule.Condition record && (r.processors.get rule.ProcessorID).isSome

/-- The spec's `SelectProcessor`, in its words: the processor bound to the first
rule, in rule order, that resolves; if no rule resolves, the default processor if
registered; otherwise a no-processor-available error. -/
def SelectProcessor {σ : Type} (r : ProcessorRouter σ) (record : Payment) :
    Except GoError (PaymentProcessor σ) :=
  match (r.routingRules.find? (resolves r record)).bind
      (fun rule => r.processors.get rule.ProcessorID) with
  | some processor => .ok processor
  | none =>
    match r.processors.get r.defaultProcessor with
    | some processor => .ok processor
    | none => .error (.errorsNew "no suitable processor available")

/-- Rule list sorted by non-increasing priority (the evaluation order). -/
abbrev SortedByPriority (rules : List RoutingRule) : Prop :=
  rules.Pairwise (fun a b => b.Priority ≤ a.Priority)

/-- A mutating call on a router. -/
inductive RouterOp (σ : Type) where
  | register (id : String) (processor : PaymentProcessor σ)
  | addRule (rule : RoutingRule)

/-- The router after one call, whether the call failed or not. -/
def RouterOp.apply {σ : Type} (r : ProcessorRouter σ) : RouterOp σ → ProcessorRouter σ
  | .register id processor => (RegisterProcessor r id processor).1
  | .addRule rule => (AddRoutingRule r rule).1

/-- The router reached from `NewProcessorRouter` by a sequence of calls. -/
def runOps {σ : Type} (ops : List (RouterOp σ)) : ProcessorRouter σ :=
  ops.foldl RouterOp.apply (NewProcessorRouter σ)

/-! ## Stub collaborators

Scripted stand-ins for the repository and a processor, in the manner of the
mocks of `flutterwave_adapter_test.go`. The world records every saved payment
and holds the answers of the `Save` calls still to come. -/

/-- World of the stub collaborators. -/
structure StubWorld where
  saveAnswers : List (Option GoError)
  stored : List Payment
  deriving DecidableEq, Repr

/-- A repository whose `Save` answers from the script (success once the script
is used up) and appends the payment to `stored` on success. -/
def stubRepo : PaymentRepository StubWorld where
  Save := fun w p =>
    match w.saveAnswers with
    | [] => ({ w with stored := w.stored ++ [p] }, none)
    | none :: rest => ({ saveAnswers := rest, stored := w.stored ++ [p] }, none)
    | some err :: rest => ({ w with saveAnswers := rest }, some err)
  Get := fun w id => (w, w.stored.reverse.find? (fun p => p.ID = id), none)

/-- A processor whose `Authorize` writes `status` (when given) into the payment
and returns `err`; `status := none` with `err := none` is what
`StripeProcessor.Authorize` does to the payment when its calls succeed. -/
def stubProcessor (status : Option PaymentStatus) (err : Option GoError) :
    PaymentProcessor StubWorld where
  Authorize := fun w p =>
    match status with
    | some st => (w, { p with Status := st }, err)
    | none => (w, p, err)
  Capture := fun w _ _ => (w, none)
  Refund := fun w _ _ => (w, none)

/-- An engine over the stub collaborators. -/
def stubEngine (status : Option PaymentStatus) (err : Option GoError) : PaymentEngine StubWorld :=
  { processor := stubProcessor status err, repo := stubRepo }

/-- The request of the end-to-end scenario: amount 1000, currency USD, card. -/
def sampleRequest : Payment :=
  { ID := "", ExternalID := "", Amount := 1000, Currency := "USD", Status := "",
    PaymentMethod := { Typ := "card", Details := [("number", .str "4242424242424242")] },
    CreatedAt := 0, UpdatedAt := 0, Metadata := [("order", "42")] }

/-- The record `CreatePayment` first saves for `sampleRequest`. -/
def sampleRecord : Payment := initialRecord sampleRequest "id-1" 7

/-- A rule for payments of at least 10000 minor units. -/
def sampleRule (name : String) (target : String) (priority : Int) : RoutingRule :=
  { Name := name, Condition := fun p => decide (10000 ≤ p.Amount), ProcessorID := target,
    Priority := priority }

/-- A processor error. -/
def declined : GoError := .errorsNew "card declined"

/-- A repository error. -/
def dbDown : GoError := .errorsNew "connection refused"

/-! ## engine/processor_router.go: routed calls -/

/-- Go: `func (r *ProcessorRouter) Authorize`. -/
def ProcessorRouter.Authorize {σ : Type} (r : ProcessorRouter σ) (s : σ) (payment : Payment) :
    σ × Payment × Option GoError :=
  match GetProcessor r payment with
  | .error err => (s, payment, some (.wrap "processor selection failed: %w" err))
  | .ok processor => processor.Authorize s payment

/-- What a routed `Capture` or `Refund` did. `nilRecord` is the case in which
`Repo.Get` returned neither a record nor an error (as `DbPaymentRepository.Get`
does for an unknown id): the rule conditions are then called on a nil pointer,
which conditions over `Payment` values do not describe. -/
inductive Routed (σ : Type) where
  | done (world : σ) (err : Option GoError)
  | nilRecord (world : σ)
  deriving DecidableEq

/-- Go: `func (r *ProcessorRouter) Capture`; `Repo` is the field `r.Repo`. -/
def ProcessorRouter.Capture {σ : Type} (r : ProcessorRouter σ) (Repo : PaymentRepository σ)
    (s : σ) (paymentID : String) (amount : Int) : Routed σ :=
  match Repo.Get s paymentID with
  | (s1, _, some err) => .done s1 (some (.wrap "failed to get payment: %w" err))
  | (s1, none, none) => .nilRecord s1
  | (s1, some payment, none) =>
    match GetProcessor r payment with
    | .error err => .done s1 (some (.wrap "processor selection failed: %w" err))
    | .ok processor =>
      let out := processor.Capture s1 paymentID amount
      .done out.1 out.2

/-- Go: `func (r *ProcessorRouter) Refund`; `Repo` is the field `r.Repo`. -/
def ProcessorRouter.Refund {σ : Type} (r : ProcessorRouter σ) (Repo : PaymentRepository σ)
    (s : σ) (paymentID : String) (amount : Int) : Routed σ :=
  match Repo.Get s paymentID with
  | (s1, _, some err) => .done s1 (some (.wrap "failed to get payment: %w" err))
  | (s1, none, none) => .nilRecord s1
  | (s1, some payment, none) =>
    match GetProcessor r payment with
    | .error err => .done s1 (some (.wrap "processor selection failed: %w" err))
    | .ok processor =>
      let out := processor.Refund s1 paymentID amount
      .done out.1 out.2

/-- A rule that matches payments whose status is still pending. -/
def pendingRule (target : String) (priority : Int) : RoutingRule :=
  { Name := "pending-only", Condition := fun p => decide (p.Status = StatusPending),
    ProcessorID := target, Priority := priority }

/-- A router reached by registering two processors and adding `pendingRule`. -/
def statusRouter : ProcessorRouter StubWorld :=
  runOps [RouterOp.register "stripe" (stubProcessor none none),
          RouterOp.register "flutterwave" (stubProcessor (some StatusAuthorized) none),
          RouterOp.addRule (pendingRule "flutterwave" 10)]

/-! ## processors/flutterwave_adapter.go

The HTTP client and the JSON codec are collaborators: a response arrives with
its status code and with what the two `Decode` calls of `makeRequest` read from
its body. `json.Marshal` cannot fail on the bodies built here. Of
`flutterwaveResponse` the string fields are kept (the numeric `id` and `amount`
are never read). -/

/-- Go: `const flutterwaveBaseURL`. -/
def flutterwaveBaseURL : String := "https://api.flutterwave.com/v3"

/-- Go: `func convertToMapInterface`. -/
def convertToMapInterface (input : List (String × String)) : List (String × DetailValue) :=
  input.map (fun kv => (kv.1, DetailValue.str kv.2))

/-- Go: `type flutterwaveCardDetails struct`. -/
structure flutterwaveCardDetails where
  Number : String
  Cvv : String
  ExpiryMonth : String
  ExpiryYear : String
  deriving DecidableEq, Repr

/-- Go: `type flutterwaveChargeRequest struct`. `AmountMinor` is the integer
`payment.Amount`; the Go field holds `float64(payment.Amount) / 100`. -/
structure flutterwaveChargeRequest where
  AmountMinor : Int
  Currency : String
  Email : String
  TxRef : String
  PaymentType : String
  Meta : List (String × DetailValue)
  Card : flutterwaveCardDetails
  deriving DecidableEq, Repr

/-- The `data` part of `flutterwaveResponse`. -/
structure flutterwaveResponseData where
  TxRef : String
  Status : String
  Processor : String
  AuthModel : String
  Currency : String
  RedirectURL : String
  deriving DecidableEq, Repr

/-- Go: `type flutterwaveResponse struct`. -/
structure flutterwaveResponse where
  Status : String
  Message : String
  Data : flutterwaveResponseData
  deriving DecidableEq, Repr

/-- The `body interface{}` argument of `makeRequest`. -/
inductive RequestBody where
  | nil
  | charge (req : flutterwaveChargeRequest)
  | refund (Amount : Int)
  deriving DecidableEq, Repr

/-- The request `makeRequest` hands to the HTTP client (method `POST`). -/
structure HttpRequest where
  URL : String
  Body : RequestBody
  ContentType : String
  Authorization : String
  deriving DecidableEq, Repr

/-- What came back from the HTTP client: the status code, the `message` read by
the error branch, and the result of decoding the body as a response. -/
structure HttpResponse where
  StatusCode : Nat
  errorMessage : String
  decoded : Except GoError flutterwaveResponse
  deriving DecidableEq, Repr

/-- Go: `type FlutterwaveProcessor struct` (the logger apart), with the
environment it runs in: `unix` is `time.Now().Unix()`, `urlError` is the error
of `http.NewRequestWithContext` for a URL, `Do` is `httpClient.Do`. -/
structure FlutterwaveProcessor (σ : Type) where
  apiKey : String
  baseURL : String
  repo : PaymentRepository σ
  unix : σ → Int
  urlError : String → Option GoError
  Do : σ → HttpRequest → σ × Except GoError HttpResponse

/-- One call made by the adapter to a collaborator. -/
inductive FlwCall where
  | Save (record : Payment) (err : Option GoError)
  | Get (id : String)
  | Do (request : HttpRequest)
  deriving DecidableEq, Repr

/-- How a Go call ended: it returned its `error` result, or it panicked. -/
inductive GoReturn where
  | returned (err : Option GoError)
  | panicked (msg : String)
  deriving DecidableEq, Repr

/-- The request `makeRequest` builds for a path and a body. -/
def FlutterwaveProcessor.request {σ : Type} (f : FlutterwaveProcessor σ) (path : String)
    (body : RequestBody) : HttpRequest :=
  { URL := f.baseURL ++ path, Body := body, ContentType := "application/json",
    Authorization := "Bearer " ++ f.apiKey }

/-- Go: `func (f *FlutterwaveProcessor) makeRequest`. Returns the world, the
HTTP calls made, and the pair `(*flutterwaveResponse, error)`. -/
def FlutterwaveProcessor.makeRequest {σ : Type} (f : FlutterwaveProcessor σ) (s : σ)
    (path : String) (body : RequestBody) :
    σ × List FlwCall × Except GoError flutterwaveResponse :=
  let url := f.baseURL ++ path
  match f.urlError url with
  | some err => (s, [], .error (.wrap "failed to create request: %w" err))
  | none =>
    let req : HttpRequest := f.request path body
    match f.Do s req with
    | (s1, .error err) => (s1, [FlwCall.Do req], .error (.wrap "HTTP request failed: %w" err))
    | (s1, .ok resp) =>
      if resp.StatusCode ≥ 400 then
        (s1, [FlwCall.Do req], .error (.errorf "flutterwave error: %s" resp.errorMessage))
      else
        match resp.decoded with
        | .error err =>
          (s1, [FlwCall.Do req], .error (.wrap "failed to decode response: %w" err))
        | .ok result => (s1, [FlwCall.Do req], .ok result)

/-- Go: `details[key].(string)`; `none` is the panic of the type assertion. -/
def stringDetail (details : List (String × DetailValue)) (key : String) : Option String :=
  match GoMap.get details key with
  | some (.str s) => some s
  | _ => none

/-- The `Card` field of the charge request: the zero value unless the payment
method type is "card"; `none` when one of the four type assertions panics. -/
def cardDetails (method : PaymentMethod) : Option flutterwaveCardDetails :=
  if method.Typ = "card" then
    match stringDetail method.Details "number", stringDetail method.Details "cvv",
      stringDetail method.Details "exp_month", stringDetail method.Details "exp_year" with
    | some number, some cvv, some month, some year =>
      some { Number := number, Cvv := cvv, ExpiryMonth := month, ExpiryYear := year }
    | _, _, _, _ => none
  else some { Number := "", Cvv := "", ExpiryMonth := "", ExpiryYear := "" }

/-- Go: `fmt.Sprintf("flw-%s-%d", payment.ID, time.Now().Unix())`. -/
def txRef (id : String) (unix : Int) : String :=
  "flw-" ++ id ++ "-" ++ toString unix

/-- Everything observable after a call of the adapter: the world, the payment
object as the call left it (for `Capture` and `Refund` the record they loaded),
the collaborator calls in order, and how the call ended. -/
structure FlwOutcome (σ : Type) where
  world : σ
  payment : Option Payment
  calls : List FlwCall
  result : GoReturn

/-- The charge request body `Authorize` builds. -/
def chargeRequest (payment : Payment) (ref : String) (card : flutterwaveCardDetails) :
    flutterwaveChargeRequest :=
  { AmountMinor := payment.Amount, Currency := payment.Currency, Email := "", TxRef := ref,
    PaymentType := "card", Meta := convertToMapInterface payment.Metadata, Card := card }

/-- Go: `func (f *FlutterwaveProcessor) Authorize`. -/
def FlutterwaveProcessor.Authorize {σ : Type} (f : FlutterwaveProcessor σ) (s : σ)
    (payment : Payment) : FlwOutcome σ :=
  let ref := txRef payment.ID (f.unix s)
  match cardDetails payment.PaymentMethod with
  | none =>
    { world := s, payment := some payment, calls := [],
      result := .panicked "interface conversion: interface {} is not string" }
  | some card =>
    let p1 : Payment := { payment with ExternalID := ref }
    match f.repo.Save s p1 with
    | (s1, some err) =>
      { world := s1, payment := some p1, calls := [FlwCall.Save p1 (some err)],
        result := .returned (some (.wrap "failed to save payment: %w" err)) }
    | (s1, none) =>
      match f.makeRequest s1 "/charges?type=card" (.charge (chargeRequest payment ref card)) with
      | (s2, http, .error err) =>
        { world := s2, payment := some p1, calls := FlwCall.Save p1 none :: http,
          result := .returned (some (.wrap "flutterwave API error: %w" err)) }
      | (s2, http, .ok resp) =>
        if resp.Data.Status = "successful" then
          let p2 : Payment := { p1 with Status := StatusCompleted }
          let r := f.repo.Save s2 p2
          { world := r.1, payment := some p2,
            calls := FlwCall.Save p1 none :: http ++ [FlwCall.Save p2 r.2],
            result := .returned r.2 }
        else if resp.Data.Status = "pending" then
          let p2 : Payment := { p1 with Status := StatusPending }
          let r := f.repo.Save s2 p2
          { world := r.1, payment := some p2,
            calls := FlwCall.Save p1 none :: http ++ [FlwCall.Save p2 r.2],
            result := .returned r.2 }
        else
          { world := s2, payment := some { p1 with Status := StatusFailed },
            calls := FlwCall.Save p1 none :: http,
            result := .returned (some (.errorf "payment failed: %s" resp.Data.Processor)) }

/-- Go: `func (f *FlutterwaveProcessor) Capture`. A `Get` that returns neither
a record nor an error makes `payment.ExternalID` a nil dereference. -/
def FlutterwaveProcessor.Capture {σ : Type} (f : FlutterwaveProcessor σ) (s : σ)
    (paymentID : String) (_amount : Int) : FlwOutcome σ :=
  match f.repo.Get s paymentID with
  | (s1, _, some err) =>
    { world := s1, payment := none, calls := [FlwCall.Get paymentID],
      result := .returned (some (.wrap "failed to get payment: %w" err)) }
  | (s1, none, none) =>
    { world := s1, payment := none, calls := [FlwCall.Get paymentID],
      result := .panicked "invalid memory address or nil pointer dereference" }
  | (s1, some payment, none) =>
    match f.makeRequest s1 ("/transactions/" ++ payment.ExternalID ++ "/verify") .nil with
    | (s2, http, .error err) =>
      { world := s2, payment := some payment, calls := FlwCall.Get paymentID :: http,
        result := .returned (some err) }
    | (s2, http, .ok resp) =>
      if resp.Data.Status ≠ "successful" then
        { world := s2, payment := some payment, calls := FlwCall.Get paymentID :: http,
          result := .returned
            (some (.errorf "cannot capture - transaction status: %s" resp.Data.Status)) }
      else
        let p2 : Payment := { payment with Status := StatusCompleted }
        let r := f.repo.Save s2 p2
        { world := r.1, payment := some p2,
          calls := FlwCall.Get paymentID :: http ++ [FlwCall.Save p2 r.2],
          result := .returned r.2 }

/-- Go: `func (f *FlutterwaveProcessor) Refund`. -/
def FlutterwaveProcessor.Refund {σ : Type} (f : FlutterwaveProcessor σ) (s : σ)
    (paymentID : String) (amount : Int) : FlwOutcome σ :=
  match f.repo.Get s paymentID with
  | (s1, _, some err) =>
    { world := s1, payment := none, calls := [FlwCall.Get paymentID],
      result := .returned (some (.wrap "failed to get payment: %w" err)) }
  | (s1, none, none) =>
    { world := s1, payment := none, calls := [FlwCall.Get paymentID],
      result := .panicked "invalid memory address or nil pointer dereference" }
  | (s1, some payment, none) =>
    match f.makeRequest s1 ("/transactions/" ++ payment.ExternalID ++ "/refund")
        (.refund amount) with
    | (s2, http, .error err) =>
      { world := s2, payment := some payment, calls := FlwCall.Get paymentID :: http,
        result := .returned (some err) }
    | (s2, http, .ok resp) =>
      if resp.Status ≠ "success" then
        { world := s2, payment := some payment, calls := FlwCall.Get paymentID :: http,
          result := .returned (some (.errorf "refund failed: %s" resp.Message)) }
      else
        let p2 : Payment := { payment with Status := StatusRefunded }
        let r := f.repo.Save s2 p2
        { world := r.1, payment := some p2,
          calls := FlwCall.Get paymentID :: http ++ [FlwCall.Save p2 r.2],
          result := .returned r.2 }

/-- The `error` seen through the `PaymentProcessor` interface, which has no
panics: a panic, which in Go unwinds through the caller, shows as an error. -/
def GoReturn.toError : GoReturn → Option GoError
  | .returned err => err
  | .panicked msg => some (.errorf "panic: %s" msg)

/-- The adapter as a value of the `engine.PaymentProcessor` interface. -/
def FlutterwaveProcessor.asPaymentProcessor {σ : Type} (f : FlutterwaveProcessor σ) :
    PaymentProcessor σ where
  Authorize := fun s payment =>
    ((f.Authorize s payment).world, ((f.Authorize s payment).payment).getD payment,
      (f.Authorize s payment).result.toError)
  Capture := fun s paymentID amount =>
    ((f.Capture s paymentID amount).world, (f.Capture s paymentID amount).result.toError)
  Refund := fun s paymentID amount =>
    ((f.Refund s paymentID amount).world, (f.Refund s paymentID amount).result.toError)

/-! ## Stub gateway -/

/-- World of the adapter's stubs: the stub repository's world, the clock, and
the answers of the HTTP calls still to come. -/
structure GatewayWorld where
  db : StubWorld
  unix : Int
  answers : List (Except GoError HttpResponse)
  deriving DecidableEq, Repr

/-- The stub repository, in a `GatewayWorld`. -/
def gatewayRepo : PaymentRepository GatewayWorld where
  Save := fun w p => ({ w with db := (stubRepo.Save w.db p).1 }, (stubRepo.Save w.db p).2)
  Get := fun w id => (w, (stubRepo.Get w.db id).2.1, (stubRepo.Get w.db id).2.2)

/-- Go: `NewFlutterwaveProcessor("test_key", mockRepo, logger)` of the test,
with a scripted HTTP client that accepts every URL. -/
def stubFlutterwave : FlutterwaveProcessor GatewayWorld where
  apiKey := "test_key"
  baseURL := flutterwaveBaseURL
  repo := gatewayRepo
  unix := fun w => w.unix
  urlError := fun _ => none
  Do := fun w _ =>
    match w.answers with
    | [] => (w, .error (.errorsNew "connection refused"))
    | answer :: rest => ({ w with answers := rest }, answer)

/-- A 200 answer of the gateway whose body decodes to the data status given. -/
def gatewayAnswer (dataStatus : String) : Except GoError HttpResponse :=
  .ok { StatusCode := 200, errorMessage := "",
        decoded := .ok { Status := "success", Message := "",
                         Data := { TxRef := "", Status := dataStatus, Processor := "",
                                   AuthModel := "", Currency := "", RedirectURL := "" } } }

/-- The payment of `TestFlutterwaveProcessor/Successful Authorization`. -/
def testPayment : Payment :=
  { ID := "test_123", ExternalID := "", Amount := 1000, Currency := "NGN", Status := "",
    PaymentMethod :=
      { Typ := "card",
        Details := [("number", .str "5531886652142950"), ("cvv", .str "564"),
                    ("exp_month", .str "09"), ("exp_year", .str "32")] },
    CreatedAt := 0, UpdatedAt := 0, Metadata := [] }

/-- A stored record of the given status, charged under the reference "ref-1". -/
def storedRecord (status : PaymentStatus) : Payment :=
  { sampleRecord with Status := status, ExternalID := "ref-1" }

/-- A router whose only processor is the Flutterwave adapter, registered under
the default identifier. -/
def flutterwaveRouter : ProcessorRouter GatewayWorld :=
  runOps [RouterOp.register "stripe" stubFlutterwave.asPaymentProcessor]

end Payments

/-! # Theorems -/

namespace Payments

/-! ## CreatePayment -/

theorem StatusCompleted_ne_StatusAuthorized : StatusCompleted ≠ StatusAuthorized := by decide

theorem CreatePayment_save_error {σ : Type} (e : PaymentEngine σ) (newID : String) (now : Nat)
    (s0 s1 : σ) (payment : Payment) (err : GoError)
    (hsave : e.repo.Save s0 (initialRecord payment newID now) = (s1, some err)) :
    CreatePayment e newID now s0 payment =
      { world := s1, payment := initialRecord payment newID now,
        calls := [Call.Save (initialRecord payment newID now) (some err)],
        result := .error (.wrap "failed to save initial payment: %w" err) } := by
  simp only [CreatePayment, hsave]

theorem CreatePayment_authorize_error {σ : Type} (e : PaymentEngine σ) (newID : String)
    (now : Nat) (s0 s1 s2 : σ) (payment p1 : Payment) (err : GoError)
    (hsave : e.repo.Save s0 (initialRecord payment newID now) = (s1, none))
    (hauth : e.processor.Authorize s1 (initialRecord payment newID now) = (s2, p1, some err)) :
    CreatePayment e newID now s0 payment =
      { world := (e.repo.Save s2 { p1 with Status := StatusFailed }).1,
        payment := { p1 with Status := StatusFailed },
        calls := [Call.Save (initialRecord payment newID now) none,
                  Call.Authorize (initialRecord payment newID now) p1 (some err),
                  Call.Save { p1 with Status := StatusFailed }
                    (e.repo.Save s2 { p1 with Status := StatusFailed }).2],
        result := .error (.wrap "authorization failed: %w" err) } := by
  simp only [CreatePayment, hsave, hauth]

theorem CreatePayment_authorized {σ : Type} (e : PaymentEngine σ) (newID : String)
    (now : Nat) (s0 s1 s2 : σ) (payment p1 : Payment)
    (hsave : e.repo.Save s0 (initialRecord payment newID now) = (s1, none))
    (hauth : e.processor.Authorize s1 (initialRecord payment newID now) = (s2, p1, none))
    (hst : p1.Status = StatusAuthorized) :
    CreatePayment e newID now s0 payment =
      { world := s2, payment := p1,
        calls := [Call.Save (initialRecord payment newID now) none,
                  Call.Authorize (initialRecord payment newID now) p1 none],
        result := .ok p1 } := by
  simp only [CreatePayment, hsave, hauth, hst, if_true]

theorem CreatePayment_not_authorized {σ : Type} (e : PaymentEngine σ) (newID : String)
    (now : Nat) (s0 s1 s2 : σ) (payment p1 : Payment)
    (hsave : e.repo.Save s0 (initialRecord payment newID now) = (s1, none))
    (hauth : e.processor.Authorize s1 (initialRecord payment newID now) = (s2, p1, none))
    (hst : p1.Status ≠ StatusAuthorized) :
    CreatePayment e newID now s0 payment =
      { world := (e.repo.Save s2 { p1 with Status := StatusCompleted }).1,
        payment := { p1 with Status := StatusCompleted },
        calls := [Call.Save (initialRecord payment newID now) none,
                  Call.Authorize (initialRecord payment newID now) p1 none,
                  Call.Save { p1 with Status := StatusCompleted }
                    (e.repo.Save s2 { p1 with Status := StatusCompleted }).2],
        result :=
          match (e.repo.Save s2 { p1 with Status := StatusCompleted }).2 with
          | some err => .error (.wrap "failed to save completed payment: %w" err)
          | none => .ok { p1 with Status := StatusCompleted } } := by
  simp only [CreatePayment, hsave, hauth, hst, if_false]
  rcases h : e.repo.Save s2 { p1 with Status := StatusCompleted } with ⟨s3, _ | err⟩ <;> rfl

/-- C1: when the processor changes only the status and the external id of the
record, a record returned by `CreatePayment` has status authorized, completed or
failed, carries the identifier generated at the start of the call (non-empty, as
every `uuid` string is), and has the amount and currency of the input. -/
theorem CreatePayment_returned_record {σ : Type} (e : PaymentEngine σ) (newID : String)
    (now : Nat) (s0 : σ) (payment rec : Payment)
    (hid : newID ≠ "")
    (hproc : ∀ s p, (e.processor.Authorize s p).2.1 =
      { p with Status := (e.processor.Authorize s p).2.1.Status,
               ExternalID := (e.processor.Authorize s p).2.1.ExternalID })
    (hret : (CreatePayment e newID now s0 payment).result = .ok rec) :
    (rec.Status = StatusAuthorized ∨ rec.Status = StatusCompleted ∨ rec.Status = StatusFailed) ∧
    rec.ID = newID ∧ rec.ID ≠ "" ∧
    rec.Amount = payment.Amount ∧ rec.Currency = payment.Currency := by
  rcases hs : e.repo.Save s0 (initialRecord payment newID now) with ⟨s1, _ | err⟩
  · rcases ha : e.processor.Authorize s1 (initialRecord payment newID now) with ⟨s2, p1, _ | err⟩
    · have hp := hproc s1 (initialRecord payment newID now)
      rw [ha] at hp
      have hID : p1.ID = newID := (congrArg Payment.ID hp :)
      have hAmount : p1.Amount = payment.Amount := (congrArg Payment.Amount hp :)
      have hCurrency : p1.Currency = payment.Currency := (congrArg Payment.Currency hp :)
      have hp1 : p1.ID = newID ∧ p1.Amount = payment.Amount ∧ p1.Currency = payment.Currency :=
        ⟨hID, hAmount, hCurrency⟩
      by_cases hst : p1.Status = StatusAuthorized
      · rw [CreatePayment_authorized e newID now s0 s1 s2 payment p1 hs ha hst] at hret
        cases hret
        exact ⟨Or.inl hst, hp1.1, hp1.1 ▸ hid, hp1.2.1, hp1.2.2⟩
      · rw [CreatePayment_not_authorized e newID now s0 s1 s2 payment p1 hs ha hst] at hret
        rcases hs3 : (e.repo.Save s2 { p1 with Status := StatusCompleted }).2 with _ | err
        · simp only [hs3] at hret
          cases hret
          exact ⟨Or.inr (Or.inl rfl), hp1.1, hp1.1 ▸ hid, hp1.2.1, hp1.2.2⟩
        · simp only [hs3] at hret
          cases hret
    · rw [CreatePayment_authorize_error e newID now s0 s1 s2 payment p1 err hs ha] at hret
      cases hret
  · rw [CreatePayment_save_error e newID now s0 s1 payment err hs] at hret
    cases hret

theorem CreatePayment_returned_record_witness :
    ("id-1" : String) ≠ "" ∧
    (CreatePayment (stubEngine none none) "id-1" 7 ⟨[], []⟩ sampleRequest).result
      = .ok { sampleRecord with Status := StatusCompleted } ∧
    (({ sampleRecord with Status := StatusCompleted } : Payment).Status = StatusAuthorized ∨
      ({ sampleRecord with Status := StatusCompleted } : Payment).Status = StatusCompleted ∨
      ({ sampleRecord with Status := StatusCompleted } : Payment).Status = StatusFailed) ∧
    ({ sampleRecord with Status := StatusCompleted } : Payment).ID = "id-1" ∧
    ({ sampleRecord with Status := StatusCompleted } : Payment).ID ≠ "" ∧
    ({ sampleRecord with Status := StatusCompleted } : Payment).Amount = sampleRequest.Amount ∧
    ({ sampleRecord with Status := StatusCompleted } : Payment).Currency = sampleRequest.Currency :=
  ⟨by decide, by decide,
   CreatePayment_returned_record (stubEngine none none) "id-1" 7 ⟨[], []⟩ sampleRequest
     { sampleRecord with Status := StatusCompleted } (by decide) (fun _ _ => rfl) (by decide)⟩

/-- C4 (evaluation at the failing input): with a processor that leaves the
record authorized, `CreatePayment` reports success with status authorized
although its only `Save` was made before `Authorize`, on the pending record; the
repository holds the record as pending. -/
theorem CreatePayment_authorized_not_saved :
    (CreatePayment (stubEngine (some StatusAuthorized) none) "id-1" 7 ⟨[], []⟩ sampleRequest).result
      = .ok { sampleRecord with Status := StatusAuthorized } ∧
    (CreatePayment (stubEngine (some StatusAuthorized) none) "id-1" 7 ⟨[], []⟩ sampleRequest).calls
      = [Call.Save sampleRecord none,
         Call.Authorize sampleRecord { sampleRecord with Status := StatusAuthorized } none] ∧
    (CreatePayment (stubEngine (some StatusAuthorized) none) "id-1" 7 ⟨[], []⟩ sampleRequest).world.stored
      = [sampleRecord] ∧
    sampleRecord.Status = StatusPending := by
  decide

/-- C5: when the initial `Save` succeeds and `Authorize` returns an error,
`CreatePayment` sets the status to failed, calls `Save` once more, on the failed
record, and returns no record but an authorization error wrapping the processor's
error; an engine whose repository answers the later `Save` differently returns
the same error. -/
theorem CreatePayment_authorization_failure {σ : Type} (e : PaymentEngine σ) (newID : String)
    (now : Nat) (s0 s1 s2 : σ) (payment p1 : Payment) (err : GoError)
    (hsave : e.repo.Save s0 (initialRecord payment newID now) = (s1, none))
    (hauth : e.processor.Authorize s1 (initialRecord payment newID now) = (s2, p1, some err)) :
    (CreatePayment e newID now s0 payment).result
      = .error (.wrap "authorization failed: %w" err) ∧
    GoError.Unwrap (.wrap "authorization failed: %w" err) = some err ∧
    (CreatePayment e newID now s0 payment).payment = { p1 with Status := StatusFailed } ∧
    (CreatePayment e newID now s0 payment).payment.Status = StatusFailed ∧
    (CreatePayment e newID now s0 payment).calls
      = [Call.Save (initialRecord payment newID now) none,
         Call.Authorize (initialRecord payment newID now) p1 (some err),
         Call.Save { p1 with Status := StatusFailed }
           (e.repo.Save s2 { p1 with Status := StatusFailed }).2] ∧
    (∀ repo2 : PaymentRepository σ,
      repo2.Save s0 (initialRecord payment newID now) = (s1, none) →
      (CreatePayment { e with repo := repo2 } newID now s0 payment).result
        = (CreatePayment e newID now s0 payment).result) := by
  rw [CreatePayment_authorize_error e newID now s0 s1 s2 payment p1 err hsave hauth]
  refine ⟨rfl, rfl, rfl, rfl, rfl, ?_⟩
  intro repo2 h2
  rw [CreatePayment_authorize_error { e with repo := repo2 } newID now s0 s1 s2 payment p1 err
    h2 hauth]

theorem CreatePayment_authorization_failure_witness :
    (CreatePayment (stubEngine none (some declined)) "id-1" 7 ⟨[none, some dbDown], []⟩
        sampleRequest).result
      = .error (.wrap "authorization failed: %w" declined) ∧
    (CreatePayment (stubEngine none (some declined)) "id-1" 7 ⟨[none, some dbDown], []⟩
        sampleRequest).calls
      = [Call.Save sampleRecord none,
         Call.Authorize sampleRecord sampleRecord (some declined),
         Call.Save { sampleRecord with Status := StatusFailed } (some dbDown)] :=
  have h := CreatePayment_authorization_failure (stubEngine none (some declined)) "id-1" 7
    ⟨[none, some dbDown], []⟩ ⟨[some dbDown], [sampleRecord]⟩ ⟨[some dbDown], [sampleRecord]⟩
    sampleRequest sampleRecord declined (by decide) (by decide)
  ⟨h.1, h.2.2.2.2.1⟩

/-- C6: when the first `Save` fails, `CreatePayment` returns no record but a
storage error wrapping the repository's error, and that `Save` is its only call
to a collaborator: `Authorize` is not invoked and `Save` is not called again. -/
theorem CreatePayment_initial_save_failure {σ : Type} (e : PaymentEngine σ) (newID : String)
    (now : Nat) (s0 s1 : σ) (payment : Payment) (err : GoError)
    (hsave : e.repo.Save s0 (initialRecord payment newID now) = (s1, some err)) :
    (CreatePayment e newID now s0 payment).result
      = .error (.wrap "failed to save initial payment: %w" err) ∧
    GoError.Unwrap (.wrap "failed to save initial payment: %w" err) = some err ∧
    (CreatePayment e newID now s0 payment).calls
      = [Call.Save (initialRecord payment newID now) (some err)] ∧
    (CreatePayment e newID now s0 payment).world = s1 := by
  rw [CreatePayment_save_error e newID now s0 s1 payment err hsave]
  exact ⟨rfl, rfl, rfl, rfl⟩

theorem CreatePayment_initial_save_failure_witness :
    (CreatePayment (stubEngine none none) "id-1" 7 ⟨[some dbDown], []⟩ sampleRequest).result
      = .error (.wrap "failed to save initial payment: %w" dbDown) ∧
    (CreatePayment (stubEngine none none) "id-1" 7 ⟨[some dbDown], []⟩ sampleRequest).calls
      = [Call.Save sampleRecord (some dbDown)] :=
  have h := CreatePayment_initial_save_failure (stubEngine none none) "id-1" 7
    ⟨[some dbDown], []⟩ ⟨[], []⟩ sampleRequest dbDown (by decide)
  ⟨h.1, h.2.2.1⟩

/-- C7 (counterexample): a processor whose `Authorize` succeeds and leaves the
record pending, as `StripeProcessor.Authorize` does and as
`FlutterwaveProcessor.Authorize` does on the gateway answer "pending", makes
`CreatePayment` return status completed although the processor did not leave the
status completed. -/
theorem CreatePayment_pending_becomes_completed :
    stubRepo.Save ⟨[], []⟩ sampleRecord = (⟨[], [sampleRecord]⟩, none) ∧
    (stubProcessor none none).Authorize ⟨[], [sampleRecord]⟩ sampleRecord
      = (⟨[], [sampleRecord]⟩, sampleRecord, none) ∧
    sampleRecord.Status = StatusPending ∧
    (CreatePayment (stubEngine none none) "id-1" 7 ⟨[], []⟩ sampleRequest).result
      = .ok { sampleRecord with Status := StatusCompleted } ∧
    ¬ (({ sampleRecord with Status := StatusCompleted } : Payment).Status = StatusCompleted ↔
        sampleRecord.Status = StatusCompleted) := by
  decide

/-- C7 (amended): when the initial `Save` and `Authorize` both succeed,
`CreatePayment` returns the record as the processor left it, with no further
call, if that status is authorized. For every other status the processor left,
pending included, it sets completed and calls `Save` on the completed record,
as its third and last call: when that `Save` succeeds it returns the completed
record, and when it fails it returns the wrapped storage error. So a returned
record is authorized exactly when the processor left it authorized, and
completed exactly when the processor left it anything else, and a returned
completed record has been saved, successfully, after `Authorize`. -/
theorem CreatePayment_status_after_authorize {σ : Type} (e : PaymentEngine σ) (newID : String)
    (now : Nat) (s0 s1 s2 : σ) (payment p1 : Payment)
    (hsave : e.repo.Save s0 (initialRecord payment newID now) = (s1, none))
    (hauth : e.processor.Authorize s1 (initialRecord payment newID now) = (s2, p1, none)) :
    (p1.Status = StatusAuthorized →
      (CreatePayment e newID now s0 payment).result = .ok p1 ∧
      (CreatePayment e newID now s0 payment).payment = p1 ∧
      (CreatePayment e newID now s0 payment).calls
        = [Call.Save (initialRecord payment newID now) none,
           Call.Authorize (initialRecord payment newID now) p1 none] ∧
      (CreatePayment e newID now s0 payment).world = s2) ∧
    (p1.Status ≠ StatusAuthorized →
      (CreatePayment e newID now s0 payment).payment = { p1 with Status := StatusCompleted } ∧
      (CreatePayment e newID now s0 payment).calls
        = [Call.Save (initialRecord payment newID now) none,
           Call.Authorize (initialRecord payment newID now) p1 none,
           Call.Save { p1 with Status := StatusCompleted }
             (e.repo.Save s2 { p1 with Status := StatusCompleted }).2] ∧
      (CreatePayment e newID now s0 payment).world
        = (e.repo.Save s2 { p1 with Status := StatusCompleted }).1 ∧
      ((e.repo.Save s2 { p1 with Status := StatusCompleted }).2 = none →
        (CreatePayment e newID now s0 payment).result
          = .ok { p1 with Status := StatusCompleted }) ∧
      (∀ err, (e.repo.Save s2 { p1 with Status := StatusCompleted }).2 = some err →
        (CreatePayment e newID now s0 payment).result
          = .error (.wrap "failed to save completed payment: %w" err))) ∧
    (∀ rec, (CreatePayment e newID now s0 payment).result = .ok rec →
      (rec.Status = StatusAuthorized ↔ p1.Status = StatusAuthorized) ∧
      (rec.Status = StatusCompleted ↔ p1.Status ≠ StatusAuthorized) ∧
      (rec.Status = StatusCompleted →
        (CreatePayment e newID now s0 payment).calls
          = [Call.Save (initialRecord payment newID now) none,
             Call.Authorize (initialRecord payment newID now) p1 none,
             Call.Save rec none])) := by
  by_cases hst : p1.Status = StatusAuthorized
  · rw [CreatePayment_authorized e newID now s0 s1 s2 payment p1 hsave hauth hst]
    refine ⟨fun _ => ⟨rfl, rfl, rfl, rfl⟩, fun h => absurd hst h, ?_⟩
    intro rec hrec
    cases hrec
    have hne : ¬ p1.Status = StatusCompleted := by
      rw [hst]
      decide
    exact ⟨Iff.rfl, ⟨fun h => absurd h hne, fun h => absurd hst h⟩, fun h => absurd h hne⟩
  · rw [CreatePayment_not_authorized e newID now s0 s1 s2 payment p1 hsave hauth hst]
    refine ⟨fun h => absurd h hst, fun _ => ⟨rfl, rfl, rfl, ?_, ?_⟩, ?_⟩
    · intro h3
      simp only [h3]
    · intro err h3
      simp only [h3]
    · intro rec hrec
      rcases h3 : (e.repo.Save s2 { p1 with Status := StatusCompleted }).2 with _ | err
      · simp only [h3] at hrec
        cases hrec
        exact ⟨⟨fun h => absurd h StatusCompleted_ne_StatusAuthorized, fun h => absurd h hst⟩,
               ⟨fun _ => hst, fun _ => rfl⟩, fun _ => rfl⟩
      · simp only [h3] at hrec
        cases hrec

theorem CreatePayment_status_after_authorize_witness :
    (CreatePayment (stubEngine (some StatusPending) none) "id-1" 7 ⟨[], []⟩ sampleRequest).result
      = .ok { sampleRecord with Status := StatusCompleted } ∧
    (CreatePayment (stubEngine (some StatusPending) none) "id-1" 7 ⟨[], []⟩ sampleRequest).calls
      = [Call.Save sampleRecord none,
         Call.Authorize sampleRecord { sampleRecord with Status := StatusPending } none,
         Call.Save { sampleRecord with Status := StatusCompleted } none] :=
  have h := (CreatePayment_status_after_authorize (stubEngine (some StatusPending) none) "id-1" 7
    ⟨[], []⟩ ⟨[], [sampleRecord]⟩ ⟨[], [sampleRecord]⟩ sampleRequest
    { sampleRecord with Status := StatusPending } (by decide) (by decide)).2.1 (by decide)
  ⟨h.2.2.2.1 (by decide), h.2.1⟩

/-! ## Go maps -/

theorem GoMap.get_set {V : Type} (m : GoMap V) (k : String) (v : V) (k2 : String) :
    (GoMap.set m k v).get k2 = if k2 = k then some v else m.get k2 := by
  induction m with
  | nil =>
    by_cases h : k2 = k
    · simp [GoMap.set, GoMap.get, h]
    · have h2 : ¬ k = k2 := fun e => h e.symm
      simp [GoMap.set, GoMap.get, h, h2]
  | cons kv rest ih =>
    obtain ⟨k1, v1⟩ := kv
    by_cases h1 : k1 = k
    · subst h1
      by_cases h : k2 = k1
      · subst h
        simp [GoMap.set, GoMap.get]
      · have h2 : ¬ k1 = k2 := fun e => h e.symm
        simp [GoMap.set, GoMap.get, h, h2]
    · by_cases h : k2 = k
      · subst h
        simp [GoMap.set, GoMap.get, h1, ih]
      · by_cases h3 : k1 = k2
        · simp [GoMap.set, GoMap.get, h1, h3, h]
        · simp [GoMap.set, GoMap.get, h1, h3, h, ih]

/-! ## GetProcessor -/

theorem GetProcessor.loop_eq_find {σ : Type} (r : ProcessorRouter σ) (payment : Payment)
    (rules : List RoutingRule) :
    GetProcessor.loop r.processors payment rules =
      (rules.find? (resolves r payment)).bind (fun rule => r.processors.get rule.ProcessorID) := by
  induction rules with
  | nil => rfl
  | cons rule rest ih =>
    by_cases hc : rule.Condition payment = true
    · rcases hg : r.processors.get rule.ProcessorID with _ | processor
      · simp [GetProcessor.loop, resolves, hc, hg, List.find?, ih]
      · simp [GetProcessor.loop, resolves, hc, hg, List.find?]
    · simp [GetProcessor.loop, resolves, hc, List.find?, ih]

theorem GetProcessor.loop_skip {σ : Type} (r : ProcessorRouter σ) (payment : Payment)
    (pre rest : List RoutingRule) (hpre : ∀ x ∈ pre, resolves r payment x = false) :
    GetProcessor.loop r.processors payment (pre ++ rest) =
      GetProcessor.loop r.processors payment rest := by
  induction pre with
  | nil => rfl
  | cons x pre ih =>
    have hx := hpre x (List.mem_cons_self x pre)
    have ih2 := ih (fun y hy => hpre y (List.mem_cons_of_mem x hy))
    by_cases hc : x.Condition payment = true
    · rcases hg : r.processors.get x.ProcessorID with _ | processor
      · simp [GetProcessor.loop, hc, hg, ih2]
      · simp [resolves, hc, hg] at hx
    · simp [GetProcessor.loop, hc, ih2]

/-- C2: `GetProcessor` is the spec's `SelectProcessor`. It returns the processor
registered under the target of the first rule, in rule-list order, whose
condition holds for the payment and whose target is registered; without such a
rule it returns the processor registered under the default identifier, and when
that is not registered it fails with the no-processor-available error. -/
theorem GetProcessor_eq_SelectProcessor {σ : Type} (r : ProcessorRouter σ) (payment : Payment) :
    GetProcessor r payment = SelectProcessor r payment ∧
    (∀ pre rule post processor, r.routingRules = pre ++ rule :: post →
      (∀ x ∈ pre, ¬ (x.Condition payment = true ∧ (r.processors.get x.ProcessorID).isSome)) →
      rule.Condition payment = true → r.processors.get rule.ProcessorID = some processor →
      GetProcessor r payment = .ok processor) ∧
    ((∀ x ∈ r.routingRules,
        ¬ (x.Condition payment = true ∧ (r.processors.get x.ProcessorID).isSome)) →
      (∀ processor, r.processors.get r.defaultProcessor = some processor →
        GetProcessor r payment = .ok processor) ∧
      (r.processors.get r.defaultProcessor = none →
        GetProcessor r payment = .error (.errorsNew "no suitable processor available"))) := by
  have hres : ∀ l : List RoutingRule,
      (∀ x ∈ l, ¬ (x.Condition payment = true ∧ (r.processors.get x.ProcessorID).isSome)) →
      ∀ x ∈ l, resolves r payment x = false := by
    intro l hl x hx
    have := hl x hx
    simpa [resolves] using this
  refine ⟨?_, ?_, ?_⟩
  · unfold GetProcessor SelectProcessor
    rw [GetProcessor.loop_eq_find]
  · intro pre rule post processor hsplit hpre hc hg
    unfold GetProcessor
    rw [hsplit, GetProcessor.loop_skip r payment pre (rule :: post) (hres pre hpre)]
    simp [GetProcessor.loop, hc, hg]
  · intro hnone
    have hloop : GetProcessor.loop r.processors payment r.routingRules = none := by
      have := GetProcessor.loop_skip r payment r.routingRules [] (hres _ hnone)
      rw [List.append_nil] at this
      rw [this]
      rfl
    constructor
    · intro processor hd
      unfold GetProcessor
      rw [hloop, hd]
    · intro hd
      unfold GetProcessor
      rw [hloop, hd]

/-! ## AddRoutingRule: where the loop inserts -/

theorem insertionIndex_succ (rule : RoutingRule) (rules : List RoutingRule) (i : Nat) :
    insertionIndex rule rules (i + 1) = (insertionIndex rule rules i).map (· + 1) := by
  induction rules generalizing i with
  | nil => rfl
  | cons existing rest ih =>
    by_cases h : rule.Priority > existing.Priority
    · simp [insertionIndex, h]
    · simp [insertionIndex, h, ih]

theorem insertRule_nil (rule : RoutingRule) : insertRule rule [] = [rule] := rfl

theorem insertRule_cons_gt (rule existing : RoutingRule) (rest : List RoutingRule)
    (h : rule.Priority > existing.Priority) :
    insertRule rule (existing :: rest) = rule :: existing :: rest := by
  simp [insertRule, insertionIndex, h]

theorem insertRule_cons_le (rule existing : RoutingRule) (rest : List RoutingRule)
    (h : ¬ rule.Priority > existing.Priority) :
    insertRule rule (existing :: rest) = existing :: insertRule rule rest := by
  unfold insertRule
  simp only [insertionIndex, h, if_false]
  rw [show (0 : Nat) + 1 = 0 + 1 from rfl, insertionIndex_succ]
  rcases insertionIndex rule rest 0 with _ | j
  · rfl
  · simp

/-- The stored list is the old list with the rule put in at one place; the rules
before that place have a priority of at least the rule's, and the rule right
after it, if any, a smaller one. -/
theorem insertRule_split (rule : RoutingRule) (rules : List RoutingRule) :
    ∃ pre post, rules = pre ++ post ∧ insertRule rule rules = pre ++ rule :: post ∧
      (∀ x ∈ pre, rule.Priority ≤ x.Priority) ∧
      (∀ y ∈ post.head?, y.Priority < rule.Priority) := by
  induction rules with
  | nil => exact ⟨[], [], rfl, rfl, by simp, by simp⟩
  | cons existing rest ih =>
    by_cases h : rule.Priority > existing.Priority
    · exact ⟨[], existing :: rest, rfl, insertRule_cons_gt rule existing rest h, by simp,
        by simpa using h⟩
    · obtain ⟨pre, post, hsplit, hins, hpre, hpost⟩ := ih
      refine ⟨existing :: pre, post, by rw [hsplit]; rfl, ?_, ?_, hpost⟩
      · rw [insertRule_cons_le rule existing rest h, hins]; rfl
      · intro x hx
        rcases List.mem_cons.mp hx with rfl | hx
        · exact not_lt.mp h
        · exact hpre x hx

theorem sorted_head_bound (post : List RoutingRule) (q : Int) (hs : SortedByPriority post)
    (hhead : ∀ y ∈ post.head?, y.Priority < q) : ∀ x ∈ post, x.Priority < q := by
  cases post with
  | nil => intro x hx; cases hx
  | cons y rest =>
    intro x hx
    have hy : y.Priority < q := hhead y (by simp)
    rcases List.mem_cons.mp hx with rfl | hx
    · exact hy
    · exact lt_of_le_of_lt (List.rel_of_pairwise_cons hs hx) hy

/-- Insertion into a sorted list: the split of `insertRule_split` with every rule
after the insertion place of smaller priority, and a sorted result. -/
theorem insertRule_sorted (rule : RoutingRule) (rules : List RoutingRule)
    (hs : SortedByPriority rules) :
    SortedByPriority (insertRule rule rules) ∧
    ∃ pre post, rules = pre ++ post ∧ insertRule rule rules = pre ++ rule :: post ∧
      (∀ x ∈ pre, rule.Priority ≤ x.Priority) ∧ (∀ x ∈ post, x.Priority < rule.Priority) := by
  obtain ⟨pre, post, hsplit, hins, hpre, hhead⟩ := insertRule_split rule rules
  have hs2 : SortedByPriority (pre ++ post) := hsplit ▸ hs
  obtain ⟨hp1, hp2, hp3⟩ := List.pairwise_append.mp hs2
  have hpost := sorted_head_bound post rule.Priority hp2 hhead
  refine ⟨?_, pre, post, hsplit, hins, hpre, hpost⟩
  rw [hins]
  refine List.pairwise_append.mpr ⟨hp1, List.pairwise_cons.mpr ⟨?_, hp2⟩, ?_⟩
  · intro x hx
    exact le_of_lt (hpost x hx)
  · intro a ha b hb
    rcases List.mem_cons.mp hb with rfl | hb
    · exact hpre a ha
    · exact hp3 a ha b hb

theorem AddRoutingRule_registered {σ : Type} (r : ProcessorRouter σ) (rule : RoutingRule)
    (h : (r.processors.get rule.ProcessorID).isSome) :
    AddRoutingRule r rule = ({ r with routingRules := insertRule rule r.routingRules }, none) := by
  unfold AddRoutingRule
  rcases hg : r.processors.get rule.ProcessorID with _ | p
  · rw [hg] at h; cases h
  · rfl

theorem AddRoutingRule_unregistered {σ : Type} (r : ProcessorRouter σ) (rule : RoutingRule)
    (h : r.processors.get rule.ProcessorID = none) :
    AddRoutingRule r rule
      = (r, some (.errorf "processor %q not registered" rule.ProcessorID)) := by
  unfold AddRoutingRule
  rw [h]

/-- C3: for a router whose rule list is sorted by non-increasing priority and a
rule whose target is registered, `AddRoutingRule` succeeds, the new rule list is
again sorted, it is the old list with the new rule put in at one place (old rules
keep their relative order), every rule before the new one has a priority of at
least the new rule's, and every rule after it a smaller one, so the new rule
comes after every rule of greater or equal priority. In particular, on a router
that still has the rule list of a new router, adding rules of priorities 5, 10
and 1 in that order gives the order [10, 5, 1, fallback]. -/
theorem AddRoutingRule_stable_insert {σ : Type} (r : ProcessorRouter σ) (rule : RoutingRule)
    (hs : SortedByPriority r.routingRules)
    (hreg : (r.processors.get rule.ProcessorID).isSome) :
    (AddRoutingRule r rule).2 = none ∧
    SortedByPriority (AddRoutingRule r rule).1.routingRules ∧
    (∃ pre post, r.routingRules = pre ++ post ∧
      (AddRoutingRule r rule).1.routingRules = pre ++ rule :: post ∧
      (∀ x ∈ pre, rule.Priority ≤ x.Priority) ∧ (∀ x ∈ post, x.Priority < rule.Priority)) ∧
    (∀ (r0 : ProcessorRouter σ) (a b c : RoutingRule),
      r0.routingRules = (NewProcessorRouter σ).routingRules →
      a.Priority = 5 → b.Priority = 10 → c.Priority = 1 →
      (r0.processors.get a.ProcessorID).isSome → (r0.processors.get b.ProcessorID).isSome →
      (r0.processors.get c.ProcessorID).isSome →
      (AddRoutingRule (AddRoutingRule (AddRoutingRule r0 a).1 b).1 c).1.routingRules
        = [b, a, c, fallbackRule]) := by
  refine ⟨?_, ?_, ?_, ?_⟩
  · rw [AddRoutingRule_registered r rule hreg]
  · rw [AddRoutingRule_registered r rule hreg]
    exact (insertRule_sorted rule r.routingRules hs).1
  · rw [AddRoutingRule_registered r rule hreg]
    exact (insertRule_sorted rule r.routingRules hs).2
  · intro r0 a b c h0 ha hb hc hra hrb hrc
    have hf : fallbackRule.Priority = 0 := rfl
    have e1 : (AddRoutingRule r0 a).1 = { r0 with routingRules := insertRule a r0.routingRules } := by
      rw [AddRoutingRule_registered r0 a hra]
    rw [e1]
    have e2 : (AddRoutingRule { r0 with routingRules := insertRule a r0.routingRules } b).1
        = { r0 with routingRules := insertRule b (insertRule a r0.routingRules) } := by
      rw [AddRoutingRule_registered { r0 with routingRules := insertRule a r0.routingRules } b hrb]
    rw [e2]
    have e3 : (AddRoutingRule
          { r0 with routingRules := insertRule b (insertRule a r0.routingRules) } c).1
        = { r0 with routingRules := insertRule c (insertRule b (insertRule a r0.routingRules)) } := by
      rw [AddRoutingRule_registered
        { r0 with routingRules := insertRule b (insertRule a r0.routingRules) } c hrc]
    rw [e3, h0]
    show insertRule c (insertRule b (insertRule a [fallbackRule])) = [b, a, c, fallbackRule]
    rw [insertRule_cons_gt a fallbackRule [] (by rw [ha, hf]; decide),
      insertRule_cons_gt b a [fallbackRule] (by rw [ha, hb]; decide),
      insertRule_cons_le c b [a, fallbackRule] (by rw [hc, hb]; decide),
      insertRule_cons_le c a [fallbackRule] (by rw [hc, ha]; decide),
      insertRule_cons_gt c fallbackRule [] (by rw [hc, hf]; decide)]

theorem AddRoutingRule_stable_insert_witness :
    (AddRoutingRule (RegisterProcessor (NewProcessorRouter StubWorld) "stripe"
        (stubProcessor none none)).1 (sampleRule "high" "stripe" 5)).2 = none ∧
    (AddRoutingRule (AddRoutingRule (AddRoutingRule
        (RegisterProcessor (NewProcessorRouter StubWorld) "stripe" (stubProcessor none none)).1
        (sampleRule "five" "stripe" 5)).1 (sampleRule "ten" "stripe" 10)).1
        (sampleRule "one" "stripe" 1)).1.routingRules
      = [sampleRule "ten" "stripe" 10, sampleRule "five" "stripe" 5, sampleRule "one" "stripe" 1,
         fallbackRule] :=
  have h := AddRoutingRule_stable_insert
    (RegisterProcessor (NewProcessorRouter StubWorld) "stripe" (stubProcessor none none)).1
    (sampleRule "high" "stripe" 5)
    (List.pairwise_singleton _ _) (by decide)
  ⟨h.1, h.2.2.2 _ (sampleRule "five" "stripe" 5) (sampleRule "ten" "stripe" 10)
    (sampleRule "one" "stripe" 1) rfl rfl rfl rfl (by decide) (by decide) (by decide)⟩

/-- C9: `AddRoutingRule` fails exactly when the rule's target identifier is not
registered; a failed call leaves the router as it was, and a successful call
leaves the registry and the default identifier as they were and puts exactly
that one rule into the rule list, the old rules keeping their order. -/
theorem AddRoutingRule_fails_iff_unregistered {σ : Type} (r : ProcessorRouter σ)
    (rule : RoutingRule) :
    ((AddRoutingRule r rule).2 ≠ none ↔ r.processors.get rule.ProcessorID = none) ∧
    (r.processors.get rule.ProcessorID = none →
      AddRoutingRule r rule
        = (r, some (.errorf "processor %q not registered" rule.ProcessorID))) ∧
    ((r.processors.get rule.ProcessorID).isSome →
      (AddRoutingRule r rule).2 = none ∧
      (AddRoutingRule r rule).1.processors = r.processors ∧
      (AddRoutingRule r rule).1.defaultProcessor = r.defaultProcessor ∧
      (AddRoutingRule r rule).1.routingRules.length = r.routingRules.length + 1 ∧
      ∃ pre post, r.routingRules = pre ++ post ∧
        (AddRoutingRule r rule).1.routingRules = pre ++ rule :: post) := by
  refine ⟨?_, AddRoutingRule_unregistered r rule, ?_⟩
  · rcases hg : r.processors.get rule.ProcessorID with _ | p
    · rw [AddRoutingRule_unregistered r rule hg]
      simp
    · rw [AddRoutingRule_registered r rule (by rw [hg]; rfl)]
      simp
  · intro hreg
    rw [AddRoutingRule_registered r rule hreg]
    obtain ⟨pre, post, hsplit, hins, _, _⟩ := insertRule_split rule r.routingRules
    refine ⟨rfl, rfl, rfl, ?_, pre, post, hsplit, hins⟩
    show (insertRule rule r.routingRules).length = r.routingRules.length + 1
    rw [hins, hsplit]
    simp [List.length_append]
    omega

/-! ## RegisterProcessor -/

theorem RegisterProcessor_registered {σ : Type} (r : ProcessorRouter σ) (id : String)
    (processor : PaymentProcessor σ) (h : (r.processors.get id).isSome) :
    RegisterProcessor r id processor
      = (r, some (.errorf "processor %q already registered" id)) := by
  unfold RegisterProcessor
  rcases hg : r.processors.get id with _ | p
  · rw [hg] at h; cases h
  · rfl

theorem RegisterProcessor_unregistered {σ : Type} (r : ProcessorRouter σ) (id : String)
    (processor : PaymentProcessor σ) (h : r.processors.get id = none) :
    RegisterProcessor r id processor
      = ({ r with processors := r.processors.set id processor }, none) := by
  unfold RegisterProcessor
  rw [h]

/-- C8 (counterexample): on a router where "stripe" is already registered, two
`RegisterProcessor` calls with the identifier "stripe", applied one after the
other, both fail with the already-registered error: none of the two succeeds. -/
theorem RegisterProcessor_twice_both_fail :
    (RegisterProcessor
        (RegisterProcessor (NewProcessorRouter StubWorld) "stripe" (stubProcessor none none)).1
        "stripe" (stubProcessor (some StatusAuthorized) none)).2
      = some (.errorf "processor %q already registered" "stripe") ∧
    (RegisterProcessor
        (RegisterProcessor
          (RegisterProcessor (NewProcessorRouter StubWorld) "stripe" (stubProcessor none none)).1
          "stripe" (stubProcessor (some StatusAuthorized) none)).1
        "stripe" (stubProcessor (some StatusCompleted) none)).2
      = some (.errorf "processor %q already registered" "stripe") := by
  decide

/-- C8 (amended): `RegisterProcessor` fails, with the already-registered error,
exactly when the identifier is already registered; a failed call leaves the
router as it was, so the identifier still maps to the processor registered
first; a successful call changes only the entry of that identifier. Hence of two
calls with the same identifier applied one after the other, in either order,
the first succeeds and the second fails with the already-registered error when
the identifier was not registered before them, and both fail when it was. -/
theorem RegisterProcessor_fails_iff_registered {σ : Type} (r : ProcessorRouter σ) (id : String)
    (p1 p2 : PaymentProcessor σ) :
    ((RegisterProcessor r id p1).2 ≠ none ↔ (r.processors.get id).isSome) ∧
    ((r.processors.get id).isSome →
      RegisterProcessor r id p1 = (r, some (.errorf "processor %q already registered" id))) ∧
    (r.processors.get id = none →
      (RegisterProcessor r id p1).2 = none ∧
      (RegisterProcessor r id p1).1.routingRules = r.routingRules ∧
      (RegisterProcessor r id p1).1.defaultProcessor = r.defaultProcessor ∧
      ∀ k, (RegisterProcessor r id p1).1.processors.get k
        = if k = id then some p1 else r.processors.get k) ∧
    (r.processors.get id = none →
      ((RegisterProcessor r id p1).2 = none ∧
        RegisterProcessor (RegisterProcessor r id p1).1 id p2
          = ((RegisterProcessor r id p1).1,
             some (.errorf "processor %q already registered" id)) ∧
        (RegisterProcessor (RegisterProcessor r id p1).1 id p2).1.processors.get id = some p1) ∧
      ((RegisterProcessor r id p2).2 = none ∧
        RegisterProcessor (RegisterProcessor r id p2).1 id p1
          = ((RegisterProcessor r id p2).1,
             some (.errorf "processor %q already registered" id)) ∧
        (RegisterProcessor (RegisterProcessor r id p2).1 id p1).1.processors.get id = some p2)) ∧
    ((r.processors.get id).isSome →
      (RegisterProcessor r id p1).2 ≠ none ∧
      (RegisterProcessor (RegisterProcessor r id p1).1 id p2).2 ≠ none) := by
  have hget : ∀ p : PaymentProcessor σ, r.processors.get id = none →
      ∀ k, (RegisterProcessor r id p).1.processors.get k
        = if k = id then some p else r.processors.get k := by
    intro p h k
    rw [RegisterProcessor_unregistered r id p h]
    exact GoMap.get_set r.processors id p k
  have htwice : ∀ p q : PaymentProcessor σ, r.processors.get id = none →
      (RegisterProcessor r id p).2 = none ∧
        RegisterProcessor (RegisterProcessor r id p).1 id q
          = ((RegisterProcessor r id p).1,
             some (.errorf "processor %q already registered" id)) ∧
        (RegisterProcessor (RegisterProcessor r id p).1 id q).1.processors.get id = some p := by
    intro p q h
    have hk := hget p h id
    rw [if_pos rfl] at hk
    have h2 := RegisterProcessor_registered (RegisterProcessor r id p).1 id q (by rw [hk]; rfl)
    refine ⟨by rw [RegisterProcessor_unregistered r id p h], h2, ?_⟩
    rw [h2]
    exact hk
  refine ⟨?_, RegisterProcessor_registered r id p1, ?_, ?_, ?_⟩
  · rcases hg : r.processors.get id with _ | p
    · rw [RegisterProcessor_unregistered r id p1 hg]
      simp
    · rw [RegisterProcessor_registered r id p1 (by rw [hg]; rfl)]
      simp
  · intro h
    refine ⟨?_, ?_, ?_, hget p1 h⟩ <;> rw [RegisterProcessor_unregistered r id p1 h]
  · intro h
    exact ⟨htwice p1 p2 h, htwice p2 p1 h⟩
  · intro h
    rw [RegisterProcessor_registered r id p1 h]
    refine ⟨by simp, ?_⟩
    show (RegisterProcessor r id p2).2 ≠ none
    rw [RegisterProcessor_registered r id p2 h]
    simp

/-! ## The fallback rule in reachable routers -/

theorem insertRule_append_of_le (rule : RoutingRule) (pre rest : List RoutingRule)
    (hpre : ∀ x ∈ pre, rule.Priority ≤ x.Priority) :
    insertRule rule (pre ++ rest) = pre ++ insertRule rule rest := by
  induction pre with
  | nil => rfl
  | cons x pre ih =>
    have hx : ¬ rule.Priority > x.Priority := not_lt.mpr (hpre x (List.mem_cons_self x pre))
    rw [List.cons_append, insertRule_cons_le rule x (pre ++ rest) hx,
      ih (fun y hy => hpre y (List.mem_cons_of_mem x hy))]
    rfl

theorem insertRule_before_fallback (rule : RoutingRule) (pre post : List RoutingRule)
    (hq : 0 < rule.Priority) (hpre : ∀ x ∈ pre, 0 < x.Priority) :
    ∃ pre2, insertRule rule (pre ++ fallbackRule :: post) = pre2 ++ fallbackRule :: post ∧
      ∀ x ∈ pre2, 0 < x.Priority := by
  induction pre with
  | nil =>
    refine ⟨[rule], insertRule_cons_gt rule fallbackRule post hq, ?_⟩
    intro x hx
    rcases List.mem_singleton.mp hx with rfl
    exact hq
  | cons x pre ih =>
    by_cases h : rule.Priority > x.Priority
    · refine ⟨rule :: x :: pre, insertRule_cons_gt rule x (pre ++ fallbackRule :: post) h, ?_⟩
      intro y hy
      rcases List.mem_cons.mp hy with rfl | hy
      · exact hq
      · exact hpre y hy
    · obtain ⟨pre2, h2, hpos⟩ := ih (fun y hy => hpre y (List.mem_cons_of_mem x hy))
      refine ⟨x :: pre2, ?_, ?_⟩
      · rw [List.cons_append, insertRule_cons_le rule x (pre ++ fallbackRule :: post) h, h2]
        rfl
      · intro y hy
        rcases List.mem_cons.mp hy with rfl | hy
        · exact hpre y (List.mem_cons_self y pre)
        · exact hpos y hy

theorem insertRule_after_fallback (rule : RoutingRule) (pre post : List RoutingRule)
    (hq : rule.Priority ≤ 0) (hpre : ∀ x ∈ pre, 0 < x.Priority)
    (hpost : ∀ x ∈ post, x.Priority ≤ 0) :
    ∃ post2, insertRule rule (pre ++ fallbackRule :: post) = pre ++ fallbackRule :: post2 ∧
      ∀ x ∈ post2, x.Priority ≤ 0 := by
  obtain ⟨a, b, hsplit, hins, _, _⟩ := insertRule_split rule post
  refine ⟨a ++ rule :: b, ?_, ?_⟩
  · rw [insertRule_append_of_le rule pre (fallbackRule :: post)
        (fun x hx => le_trans hq (le_of_lt (hpre x hx))),
      insertRule_cons_le rule fallbackRule post (not_lt.mpr hq), hins]
  · intro x hx
    rcases List.mem_append.mp hx with hx | hx
    · exact hpost x (hsplit ▸ List.mem_append_left b hx)
    · rcases List.mem_cons.mp hx with rfl | hx
      · exact hq
      · exact hpost x (hsplit ▸ List.mem_append_right a hx)

/-- What every reachable router satisfies. -/
theorem runOps_invariant {σ : Type} (ops : List (RouterOp σ)) :
    (runOps ops).defaultProcessor = "stripe" ∧
    SortedByPriority (runOps ops).routingRules ∧
    ∃ pre post, (runOps ops).routingRules = pre ++ fallbackRule :: post ∧
      (∀ x ∈ pre, 0 < x.Priority) ∧ (∀ x ∈ post, x.Priority ≤ 0) := by
  induction ops using List.reverseRecOn with
  | nil => exact ⟨rfl, List.pairwise_singleton _ _, [], [], rfl, by simp, by simp⟩
  | append_singleton ops op ih =>
    obtain ⟨hd, hs, pre, post, hsplit, hpre, hpost⟩ := ih
    have hstep : runOps (ops ++ [op]) = RouterOp.apply (runOps ops) op := by
      simp [runOps, List.foldl_append]
    rw [hstep]
    cases op with
    | register id processor =>
      show (RegisterProcessor (runOps ops) id processor).1.defaultProcessor = "stripe" ∧
        SortedByPriority (RegisterProcessor (runOps ops) id processor).1.routingRules ∧
        ∃ pre post, (RegisterProcessor (runOps ops) id processor).1.routingRules
            = pre ++ fallbackRule :: post ∧
          (∀ x ∈ pre, 0 < x.Priority) ∧ (∀ x ∈ post, x.Priority ≤ 0)
      rcases hg : (runOps ops).processors.get id with _ | p
      · rw [RegisterProcessor_unregistered _ id processor hg]
        exact ⟨hd, hs, pre, post, hsplit, hpre, hpost⟩
      · rw [RegisterProcessor_registered _ id processor (by rw [hg]; rfl)]
        exact ⟨hd, hs, pre, post, hsplit, hpre, hpost⟩
    | addRule rule =>
      show (AddRoutingRule (runOps ops) rule).1.defaultProcessor = "stripe" ∧
        SortedByPriority (AddRoutingRule (runOps ops) rule).1.routingRules ∧
        ∃ pre post, (AddRoutingRule (runOps ops) rule).1.routingRules
            = pre ++ fallbackRule :: post ∧
          (∀ x ∈ pre, 0 < x.Priority) ∧ (∀ x ∈ post, x.Priority ≤ 0)
      rcases hg : (runOps ops).processors.get rule.ProcessorID with _ | p
      · rw [AddRoutingRule_unregistered _ rule hg]
        exact ⟨hd, hs, pre, post, hsplit, hpre, hpost⟩
      · rw [AddRoutingRule_registered _ rule (by rw [hg]; rfl)]
        refine ⟨hd, (insertRule_sorted rule _ hs).1, ?_⟩
        show ∃ pre post, insertRule rule (runOps ops).routingRules = pre ++ fallbackRule :: post ∧
          (∀ x ∈ pre, 0 < x.Priority) ∧ (∀ x ∈ post, x.Priority ≤ 0)
        rw [hsplit]
        by_cases hq : 0 < rule.Priority
        · obtain ⟨pre2, h2, hpos⟩ := insertRule_before_fallback rule pre post hq hpre
          exact ⟨pre2, post, h2, hpos, hpost⟩
        · obtain ⟨post2, h2, hle⟩ :=
            insertRule_after_fallback rule pre post (not_lt.mp hq) hpre hpost
          exact ⟨pre, post2, h2, hpre, hle⟩

/-- C10 (counterexample): after registering "stripe" and adding a rule of
priority 0 and a rule of priority -1, the rule list is [fallback, zero, low]:
the fallback is evaluated first, not last, the rule of priority 0 is evaluated
after it, and the rule of priority -1 has a lower priority than the fallback. -/
theorem fallback_not_last :
    ((runOps [RouterOp.register "stripe" (stubProcessor none none),
              RouterOp.addRule (sampleRule "zero" "stripe" 0),
              RouterOp.addRule (sampleRule "low" "stripe" (-1))]).routingRules.map
        (fun x => (x.Name, x.Priority))) = [("fallback", 0), ("zero", 0), ("low", -1)] ∧
    ((runOps [RouterOp.register "stripe" (stubProcessor none none),
              RouterOp.addRule (sampleRule "zero" "stripe" 0),
              RouterOp.addRule (sampleRule "low" "stripe" (-1))]).routingRules.getLast?.map
        (fun x => x.Name)) ≠ some "fallback" ∧
    ¬ (∀ x ∈ (runOps [RouterOp.register "stripe" (stubProcessor none none),
              RouterOp.addRule (sampleRule "zero" "stripe" 0),
              RouterOp.addRule (sampleRule "low" "stripe" (-1))]).routingRules.map
                (fun x => x.Priority), fallbackRule.Priority ≤ x) := by
  decide

/-- C10 (amended): in every router reached from `NewProcessorRouter` by
`RegisterProcessor` and `AddRoutingRule` calls, the default identifier is still
the fallback's target, the rule list is sorted by non-increasing priority, and
the fallback rule (condition always true, priority 0) is in it, after every rule
of priority greater than 0 and before every other rule, all of priority at most
0. So the fallback is tried after every rule of positive priority. -/
theorem fallback_present_after_positive {σ : Type} (ops : List (RouterOp σ)) :
    (runOps ops).defaultProcessor = fallbackRule.ProcessorID ∧
    (∀ p, fallbackRule.Condition p = true) ∧
    SortedByPriority (runOps ops).routingRules ∧
    ∃ pre post, (runOps ops).routingRules = pre ++ fallbackRule :: post ∧
      (∀ x ∈ pre, fallbackRule.Priority < x.Priority) ∧
      (∀ x ∈ post, x.Priority ≤ fallbackRule.Priority) := by
  obtain ⟨hd, hs, h⟩ := runOps_invariant ops
  exact ⟨hd, fun _ => rfl, hs, h⟩

/-! ## Routed calls -/

theorem GetProcessor.loop_congr {σ : Type} (processors : GoMap (PaymentProcessor σ))
    (rec1 rec2 : Payment) (rules : List RoutingRule)
    (h : ∀ rule ∈ rules, rule.Condition rec1 = rule.Condition rec2) :
    GetProcessor.loop processors rec1 rules = GetProcessor.loop processors rec2 rules := by
  induction rules with
  | nil => rfl
  | cons rule rest ih =>
    have h1 := h rule (List.mem_cons_self rule rest)
    have h2 := ih (fun x hx => h x (List.mem_cons_of_mem rule hx))
    simp only [GetProcessor.loop, h1, h2]

theorem GetProcessor_congr {σ : Type} (r : ProcessorRouter σ) (rec1 rec2 : Payment)
    (h : ∀ rule ∈ r.routingRules, rule.Condition rec1 = rule.Condition rec2) :
    GetProcessor r rec1 = GetProcessor r rec2 := by
  unfold GetProcessor
  rw [GetProcessor.loop_congr r.processors rec1 rec2 r.routingRules h]

/-- C11 (counterexample): in a router reached by registering "stripe" and
"flutterwave" and adding a rule whose condition reads the status, the pending
record and the same record with status completed (every other field equal) are
routed to different processors: the first to the one registered as
"flutterwave", the second to the one registered as "stripe". -/
theorem GetProcessor_depends_on_status :
    ({ sampleRecord with Status := StatusCompleted } : Payment).ID = sampleRecord.ID ∧
    ({ sampleRecord with Status := StatusCompleted } : Payment).Amount = sampleRecord.Amount ∧
    ({ sampleRecord with Status := StatusCompleted } : Payment).Currency
      = sampleRecord.Currency ∧
    ({ sampleRecord with Status := StatusCompleted } : Payment).PaymentMethod
      = sampleRecord.PaymentMethod ∧
    ({ sampleRecord with Status := StatusCompleted } : Payment).CreatedAt
      = sampleRecord.CreatedAt ∧
    ({ sampleRecord with Status := StatusCompleted } : Payment).Metadata
      = sampleRecord.Metadata ∧
    GetProcessor statusRouter sampleRecord = .ok (stubProcessor (some StatusAuthorized) none) ∧
    GetProcessor statusRouter { sampleRecord with Status := StatusCompleted }
      = .ok (stubProcessor none none) ∧
    GetProcessor statusRouter sampleRecord
      ≠ GetProcessor statusRouter { sampleRecord with Status := StatusCompleted } := by
  refine ⟨rfl, rfl, rfl, rfl, rfl, rfl, rfl, rfl, ?_⟩
  intro h
  have h2 := congrArg
    (fun x : Except GoError (PaymentProcessor StubWorld) =>
      x.map (fun p => (p.Authorize ⟨[], []⟩ sampleRecord).2.1.Status)) h
  revert h2
  decide

/-- C11 (amended): for every router state and every two payment records on which
all rule conditions give the same answers, `GetProcessor` returns the same
result; `ProcessorRouter.Capture` and `ProcessorRouter.Refund` call the processor
`GetProcessor` selects for the record the repository returns, so when the rule
conditions do not tell the stored record from the record that was authorized,
they reach the processor `ProcessorRouter.Authorize` called. -/
theorem routed_calls_same_processor {σ : Type} (r : ProcessorRouter σ)
    (Repo : PaymentRepository σ) (s0 s s1 : σ) (paymentID : String) (amount : Int)
    (record stored : Payment)
    (hget : Repo.Get s paymentID = (s1, some stored, none))
    (hcond : ∀ rule ∈ r.routingRules, rule.Condition stored = rule.Condition record) :
    GetProcessor r stored = GetProcessor r record ∧
    (∀ processor, GetProcessor r record = .ok processor →
      ProcessorRouter.Authorize r s0 record = processor.Authorize s0 record ∧
      ProcessorRouter.Capture r Repo s paymentID amount
        = .done (processor.Capture s1 paymentID amount).1
            (processor.Capture s1 paymentID amount).2 ∧
      ProcessorRouter.Refund r Repo s paymentID amount
        = .done (processor.Refund s1 paymentID amount).1
            (processor.Refund s1 paymentID amount).2) := by
  have hsame := GetProcessor_congr r stored record hcond
  refine ⟨hsame, ?_⟩
  intro processor hp
  refine ⟨?_, ?_, ?_⟩
  · simp only [ProcessorRouter.Authorize, hp]
  · simp only [ProcessorRouter.Capture, hget, hsame, hp]
  · simp only [ProcessorRouter.Refund, hget, hsame, hp]

theorem routed_calls_same_processor_witness :
    GetProcessor
        (runOps [RouterOp.register "stripe" (stubProcessor none none),
                 RouterOp.addRule (sampleRule "high" "stripe" 5)])
        { sampleRecord with Status := StatusCompleted }
      = GetProcessor
        (runOps [RouterOp.register "stripe" (stubProcessor none none),
                 RouterOp.addRule (sampleRule "high" "stripe" 5)])
        sampleRecord :=
  (routed_calls_same_processor
    (runOps [RouterOp.register "stripe" (stubProcessor none none),
             RouterOp.addRule (sampleRule "high" "stripe" 5)])
    stubRepo ⟨[], []⟩ ⟨[], [{ sampleRecord with Status := StatusCompleted }]⟩
    ⟨[], [{ sampleRecord with Status := StatusCompleted }]⟩ "id-1" 1000 sampleRecord
    { sampleRecord with Status := StatusCompleted } (by decide)
    (by
      intro rule hrule
      have hmem : rule = sampleRule "high" "stripe" 5 ∨ rule = fallbackRule := by
        simpa [runOps, RouterOp.apply, RegisterProcessor, AddRoutingRule, NewProcessorRouter,
          GoMap.get, GoMap.set, sampleRule, insertRule, insertionIndex, fallbackRule]
          using hrule
      rcases hmem with rfl | rfl <;> rfl)).1

/-- C12 (counterexample): for a request with amount 0 and for one with amount
-5, `CreatePayment` returns no error; it saves the pending record with that
amount, calls the processor and returns the completed record. -/
theorem CreatePayment_accepts_nonpositive_amount :
    (CreatePayment (stubEngine none none) "id-1" 7 ⟨[], []⟩
        { sampleRequest with Amount := 0 }).result
      = .ok { sampleRecord with Amount := 0, Status := StatusCompleted } ∧
    (CreatePayment (stubEngine none none) "id-1" 7 ⟨[], []⟩
        { sampleRequest with Amount := 0 }).calls
      = [Call.Save { sampleRecord with Amount := 0 } none,
         Call.Authorize { sampleRecord with Amount := 0 } { sampleRecord with Amount := 0 } none,
         Call.Save { sampleRecord with Amount := 0, Status := StatusCompleted } none] ∧
    (CreatePayment (stubEngine none none) "id-1" 7 ⟨[], []⟩
        { sampleRequest with Amount := -5 }).result
      = .ok { sampleRecord with Amount := -5, Status := StatusCompleted } := by
  decide

/-- C12 (amended): `CreatePayment` does not look at the amount. For every input,
whatever its amount, its first action is the repository's `Save` of the pending
record with the input's amount, and when that `Save` succeeds its second action
is the processor's `Authorize` on that record. -/
theorem CreatePayment_no_amount_validation {σ : Type} (e : PaymentEngine σ) (newID : String)
    (now : Nat) (s0 : σ) (payment : Payment) :
    (initialRecord payment newID now).Amount = payment.Amount ∧
    (∃ rest, (CreatePayment e newID now s0 payment).calls
      = Call.Save (initialRecord payment newID now)
          (e.repo.Save s0 (initialRecord payment newID now)).2 :: rest) ∧
    ((e.repo.Save s0 (initialRecord payment newID now)).2 = none →
      ∃ rest, (CreatePayment e newID now s0 payment).calls
        = Call.Save (initialRecord payment newID now) none ::
          Call.Authorize (initialRecord payment newID now)
            (e.processor.Authorize (e.repo.Save s0 (initialRecord payment newID now)).1
              (initialRecord payment newID now)).2.1
            (e.processor.Authorize (e.repo.Save s0 (initialRecord payment newID now)).1
              (initialRecord payment newID now)).2.2 :: rest) := by
  rcases hs : e.repo.Save s0 (initialRecord payment newID now) with ⟨s1, _ | err⟩
  · rcases ha : e.processor.Authorize s1 (initialRecord payment newID now) with ⟨s2, p1, _ | err⟩
    · by_cases hst : p1.Status = StatusAuthorized
      · rw [CreatePayment_authorized e newID now s0 s1 s2 payment p1 hs ha hst]
        exact ⟨rfl, ⟨_, rfl⟩, fun _ => ⟨_, rfl⟩⟩
      · rw [CreatePayment_not_authorized e newID now s0 s1 s2 payment p1 hs ha hst]
        exact ⟨rfl, ⟨_, rfl⟩, fun _ => ⟨_, rfl⟩⟩
    · rw [CreatePayment_authorize_error e newID now s0 s1 s2 payment p1 err hs ha]
      exact ⟨rfl, ⟨_, rfl⟩, fun _ => ⟨_, rfl⟩⟩
  · rw [CreatePayment_save_error e newID now s0 s1 payment err hs]
    exact ⟨rfl, ⟨_, rfl⟩, fun h => by cases h⟩

/-! ## FlutterwaveProcessor -/

theorem FlutterwaveProcessor.makeRequest_calls {σ : Type} (f : FlutterwaveProcessor σ) (s : σ)
    (path : String) (body : RequestBody) :
    ∀ c ∈ (f.makeRequest s path body).2.1, ∃ req, c = FlwCall.Do req := by
  unfold FlutterwaveProcessor.makeRequest
  rcases hu : f.urlError (f.baseURL ++ path) with _ | err
  · rcases hd : f.Do s (f.request path body) with ⟨s1, err | resp⟩
    · simp [hu, hd]
    · by_cases hc : resp.StatusCode ≥ 400
      · simp [hu, hd, hc]
      · rcases hdec : resp.decoded with err | result <;> simp [hu, hd, hc, hdec]
  · simp [hu]

theorem FlutterwaveProcessor.makeRequest_ok {σ : Type} (f : FlutterwaveProcessor σ) (s s1 : σ)
    (path : String) (body : RequestBody) (answer : HttpResponse) (resp : flutterwaveResponse)
    (hurl : f.urlError (f.baseURL ++ path) = none)
    (hdo : f.Do s (f.request path body) = (s1, .ok answer))
    (hcode : answer.StatusCode < 400) (hdec : answer.decoded = .ok resp) :
    f.makeRequest s path body
      = (s1, [FlwCall.Do (f.request path body)], .ok resp) := by
  unfold FlutterwaveProcessor.makeRequest
  simp [hurl, hdo, hdec, not_le.mpr hcode]

/-- C13 (counterexample): for a stored record with status refunded, and for one
with status pending, a capture through `ProcessorRouter.Capture` and the
Flutterwave adapter, with the gateway answering the verify request
"successful", returns no error and saves the record with status completed. -/
theorem Capture_of_refunded_record_succeeds :
    StatusRefunded ≠ StatusAuthorized ∧ StatusPending ≠ StatusAuthorized ∧
    ProcessorRouter.Capture flutterwaveRouter gatewayRepo
        ⟨⟨[], [storedRecord StatusRefunded]⟩, 7, [gatewayAnswer "successful"]⟩ "id-1" 1000
      = .done ⟨⟨[], [storedRecord StatusRefunded, storedRecord StatusCompleted]⟩, 7, []⟩ none ∧
    (gatewayRepo.Get ⟨⟨[], [storedRecord StatusRefunded, storedRecord StatusCompleted]⟩, 7, []⟩
        "id-1").2.1 = some (storedRecord StatusCompleted) ∧
    ProcessorRouter.Capture flutterwaveRouter gatewayRepo
        ⟨⟨[], [storedRecord StatusPending]⟩, 7, [gatewayAnswer "successful"]⟩ "id-1" 1000
      = .done ⟨⟨[], [storedRecord StatusPending, storedRecord StatusCompleted]⟩, 7, []⟩ none := by
  decide

/-- C13 (amended): the implemented capture path has no status check. For every
stored record, whatever its status, `FlutterwaveProcessor.Capture` decides on
the gateway's answer to the verify request alone: on data status "successful" it
sets the record's status to completed and saves it, returning the result of that
`Save`; on another data status, or when the request fails, it returns that
gateway error and makes no `Save` call, so the stored record is not modified.
`ProcessorRouter.Capture` hands the capture of a stored record to the selected
processor without looking at the status either. -/
theorem Capture_decided_by_gateway {σ : Type} (f : FlutterwaveProcessor σ) (s s1 s2 : σ)
    (paymentID : String) (amount : Int) (payment : Payment) (http : List FlwCall)
    (answer : Except GoError flutterwaveResponse)
    (hget : f.repo.Get s paymentID = (s1, some payment, none))
    (hreq : f.makeRequest s1 ("/transactions/" ++ payment.ExternalID ++ "/verify") .nil
      = (s2, http, answer)) :
    (∀ c ∈ http, ∃ req, c = FlwCall.Do req) ∧
    (∀ resp, answer = .ok resp → resp.Data.Status = "successful" →
      (f.Capture s paymentID amount).result
        = .returned (f.repo.Save s2 { payment with Status := StatusCompleted }).2 ∧
      (f.Capture s paymentID amount).calls
        = FlwCall.Get paymentID :: http ++
          [FlwCall.Save { payment with Status := StatusCompleted }
            (f.repo.Save s2 { payment with Status := StatusCompleted }).2] ∧
      (f.Capture s paymentID amount).world
        = (f.repo.Save s2 { payment with Status := StatusCompleted }).1) ∧
    (∀ resp, answer = .ok resp → resp.Data.Status ≠ "successful" →
      (f.Capture s paymentID amount).result
        = .returned (some (.errorf "cannot capture - transaction status: %s" resp.Data.Status)) ∧
      (f.Capture s paymentID amount).calls = FlwCall.Get paymentID :: http ∧
      (f.Capture s paymentID amount).world = s2) ∧
    (∀ err, answer = .error err →
      (f.Capture s paymentID amount).result = .returned (some err) ∧
      (f.Capture s paymentID amount).calls = FlwCall.Get paymentID :: http ∧
      (f.Capture s paymentID amount).world = s2) ∧
    (∀ (r : ProcessorRouter σ) (Repo : PaymentRepository σ) (s0 : σ) (stored : Payment),
      Repo.Get s0 paymentID = (s, some stored, none) →
      GetProcessor r stored = .ok f.asPaymentProcessor →
      ProcessorRouter.Capture r Repo s0 paymentID amount
        = .done (f.Capture s paymentID amount).world
            (f.Capture s paymentID amount).result.toError) := by
  refine ⟨?_, ?_, ?_, ?_, ?_⟩
  · have h := f.makeRequest_calls s1 ("/transactions/" ++ payment.ExternalID ++ "/verify") .nil
    rw [hreq] at h
    exact h
  · intro resp ha hst
    subst ha
    simp [FlutterwaveProcessor.Capture, hget, hreq, hst]
  · intro resp ha hst
    subst ha
    simp [FlutterwaveProcessor.Capture, hget, hreq, hst]
  · intro err ha
    subst ha
    simp [FlutterwaveProcessor.Capture, hget, hreq]
  · intro r Repo s0 stored hg hp
    simp [ProcessorRouter.Capture, hg, hp, FlutterwaveProcessor.asPaymentProcessor]

theorem Capture_decided_by_gateway_witness :
    (stubFlutterwave.Capture ⟨⟨[], [storedRecord StatusFailed]⟩, 7, [gatewayAnswer "successful"]⟩
        "id-1" 1000).result
      = .returned (gatewayRepo.Save ⟨⟨[], [storedRecord StatusFailed]⟩, 7, []⟩
          { storedRecord StatusFailed with Status := StatusCompleted }).2 :=
  ((Capture_decided_by_gateway stubFlutterwave
    ⟨⟨[], [storedRecord StatusFailed]⟩, 7, [gatewayAnswer "successful"]⟩
    ⟨⟨[], [storedRecord StatusFailed]⟩, 7, [gatewayAnswer "successful"]⟩
    ⟨⟨[], [storedRecord StatusFailed]⟩, 7, []⟩ "id-1" 1000 (storedRecord StatusFailed)
    [FlwCall.Do (stubFlutterwave.request "/transactions/ref-1/verify" .nil)]
    (.ok { Status := "success", Message := "",
           Data := { TxRef := "", Status := "successful", Processor := "", AuthModel := "",
                     Currency := "", RedirectURL := "" } })
    (by decide) (by decide)).2.1 _ rfl (by decide)).1

/-- C14: for a card payment whose detail bag holds string values for number,
cvv, exp_month and exp_year, when both saves succeed and the gateway answers the
charge request with data status "successful", `FlutterwaveProcessor.Authorize`
returns no error, leaves the payment's status completed, and makes exactly
three collaborator calls: a `Save` of the payment with `external_id` set to the
generated reference, the charge request, and a `Save` of the completed
payment. -/
theorem Authorize_successful {σ : Type} (f : FlutterwaveProcessor σ) (s s1 s2 s3 : σ)
    (payment : Payment) (number cvv month year : String)
    (answer : HttpResponse) (resp : flutterwaveResponse)
    (hcard : payment.PaymentMethod.Typ = "card")
    (hnumber : GoMap.get payment.PaymentMethod.Details "number" = some (.str number))
    (hcvv : GoMap.get payment.PaymentMethod.Details "cvv" = some (.str cvv))
    (hmonth : GoMap.get payment.PaymentMethod.Details "exp_month" = some (.str month))
    (hyear : GoMap.get payment.PaymentMethod.Details "exp_year" = some (.str year))
    (hsave1 : f.repo.Save s { payment with ExternalID := txRef payment.ID (f.unix s) }
      = (s1, none))
    (hurl : f.urlError (f.baseURL ++ "/charges?type=card") = none)
    (hdo : f.Do s1 (f.request "/charges?type=card"
        (.charge (chargeRequest payment (txRef payment.ID (f.unix s))
          { Number := number, Cvv := cvv, ExpiryMonth := month, ExpiryYear := year })))
      = (s2, .ok answer))
    (hcode : answer.StatusCode < 400) (hdec : answer.decoded = .ok resp)
    (hstatus : resp.Data.Status = "successful")
    (hsave2 : f.repo.Save s2
        { payment with ExternalID := txRef payment.ID (f.unix s), Status := StatusCompleted }
      = (s3, none)) :
    (f.Authorize s payment).result = .returned none ∧
    (f.Authorize s payment).payment
      = some { payment with ExternalID := txRef payment.ID (f.unix s),
                            Status := StatusCompleted } ∧
    (f.Authorize s payment).calls
      = [FlwCall.Save { payment with ExternalID := txRef payment.ID (f.unix s) } none,
         FlwCall.Do (f.request "/charges?type=card"
           (.charge (chargeRequest payment (txRef payment.ID (f.unix s))
             { Number := number, Cvv := cvv, ExpiryMonth := month, ExpiryYear := year }))),
         FlwCall.Save { payment with ExternalID := txRef payment.ID (f.unix s),
                                     Status := StatusCompleted } none] ∧
    (f.Authorize s payment).world = s3 := by
  have hc : cardDetails payment.PaymentMethod
      = some { Number := number, Cvv := cvv, ExpiryMonth := month, ExpiryYear := year } := by
    simp [cardDetails, stringDetail, hcard, hnumber, hcvv, hmonth, hyear]
  have hreq := f.makeRequest_ok s1 s2 "/charges?type=card"
    (.charge (chargeRequest payment (txRef payment.ID (f.unix s))
      { Number := number, Cvv := cvv, ExpiryMonth := month, ExpiryYear := year }))
    answer resp hurl hdo hcode hdec
  simp [FlutterwaveProcessor.Authorize, hc, hsave1, hreq, hstatus, hsave2]

theorem Authorize_successful_witness :
    (stubFlutterwave.Authorize ⟨⟨[], []⟩, 7, [gatewayAnswer "successful"]⟩ testPayment).result
      = .returned none ∧
    (stubFlutterwave.Authorize ⟨⟨[], []⟩, 7, [gatewayAnswer "successful"]⟩ testPayment).payment
      = some { testPayment with ExternalID := "flw-test_123-7", Status := StatusCompleted } :=
  have h := Authorize_successful stubFlutterwave
    ⟨⟨[], []⟩, 7, [gatewayAnswer "successful"]⟩
    ⟨⟨[], [{ testPayment with ExternalID := "flw-test_123-7" }]⟩, 7,
      [gatewayAnswer "successful"]⟩
    ⟨⟨[], [{ testPayment with ExternalID := "flw-test_123-7" }]⟩, 7, []⟩
    ⟨⟨[], [{ testPayment with ExternalID := "flw-test_123-7" },
            { testPayment with ExternalID := "flw-test_123-7", Status := StatusCompleted }]⟩,
      7, []⟩
    testPayment "5531886652142950" "564" "09" "32"
    { StatusCode := 200, errorMessage := "",
      decoded := .ok { Status := "success", Message := "",
                       Data := { TxRef := "", Status := "successful", Processor := "",
                                 AuthModel := "", Currency := "", RedirectURL := "" } } }
    { Status := "success", Message := "",
      Data := { TxRef := "", Status := "successful", Processor := "", AuthModel := "",
                Currency := "", RedirectURL := "" } }
    (by decide) (by decide) (by decide) (by decide) (by decide) (by decide) (by decide)
    (by decide) (by decide) (by decide) (by decide) (by decide)
  ⟨h.1, h.2.1⟩

end Payments
